import Mathlib

/-!
Formal model of the SIGED backend (PROYECTO_DE_GRADOS-SIGED).

This file gives a shallow embedding of the Express-style route handlers of
`Backend/controllers/authController.js`, `notasController.js`,
`aplicativosController.js`, `mailController.js` and `aiController.js`,
together with the `verificarToken` JWT middleware.

The database is modelled as lists of rows (tables `usuarios`,
`aplicativos_base`, `aplicativos_rel`, `plantillas_base`,
`notas_despacho_rel`).  Every `pool.query` call in the source becomes a
step that (a) records the SQL text and its bound parameters in a trace and
(b) may fail according to an `Oracle : Nat → Bool` (step `n` succeeds iff
the oracle returns `true` at `n`); a failing step raises the JavaScript
exception that the handlers catch.  `uuidv4()` is modelled by a counter
producing distinct fresh identifiers, and `NOW()` by the same counter.
All string operations are re-implemented over `List Char` so that they
mirror the JavaScript semantics and compute by kernel reduction.
-/

set_option maxRecDepth 16384

namespace SIGED

/-! ### String helpers mirroring the JavaScript operations used in the source -/

/-- Whitespace recognised by `String.prototype.trim` (the characters that
actually occur in this code base). -/
def isSpaceChar (c : Char) : Bool :=
  c == ' ' || c == '\n' || c == '\t' || c == '\r'

/-- A string is blank iff JavaScript `s.trim()` is falsy (empty). -/
def blank (s : String) : Bool := s.data.all isSpaceChar

/-- JavaScript `s.trim()`. -/
def jsTrim (s : String) : String :=
  ⟨(s.data.dropWhile isSpaceChar).reverse.dropWhile isSpaceChar |>.reverse⟩

/-- Truthiness of `x?.trim()` for a nullable string `x`. -/
def notBlankOpt : Option String → Bool
  | none => false
  | some s => !(blank s)

/-- JavaScript truthiness `!x` (negated) for a string field that may be
absent: `none` (undefined) and `some ""` are falsy. -/
def truthy : Option String → Bool
  | none => false
  | some s => !(s == "")

/-- Value of a possibly-absent field once the truthiness check passed. -/
def getStr (x : Option String) : String := x.getD ""

/-- JavaScript `x || d` for a string field. -/
def orDefault (x : Option String) (d : String) : String :=
  match x with
  | none => d
  | some s => if s == "" then d else s

/-- ASCII upper-casing of one character (model of SQL `UPPER`). -/
def upChar (c : Char) : Char :=
  if 'a' ≤ c ∧ c ≤ 'z' then Char.ofNat (c.toNat - 32) else c

/-- ASCII lower-casing of one character (model of `toLowerCase`). -/
def loChar (c : Char) : Char :=
  if 'A' ≤ c ∧ c ≤ 'Z' then Char.ofNat (c.toNat + 32) else c

/-- Model of SQL `UPPER(s)` / JavaScript `s.toUpperCase()` on ASCII data. -/
def upperStr (s : String) : String := ⟨s.data.map upChar⟩

/-- Model of JavaScript `s.toLowerCase()` on ASCII data. -/
def lowerStr (s : String) : String := ⟨s.data.map loChar⟩

/-- Split a character list at every occurrence of `sep`, keeping empty
pieces, exactly like JavaScript `String.prototype.split`. -/
def splitChar (sep : Char) : List Char → List (List Char)
  | [] => [[]]
  | c :: rest =>
    let r := splitChar sep rest
    if c = sep then [] :: r
    else
      match r with
      | h :: t => (c :: h) :: t
      | [] => [[c]]

/-- JavaScript `s.split(sep)` for a one-character separator. -/
def jsSplit (sep : Char) (s : String) : List String :=
  (splitChar sep s.data).map (fun l => ⟨l⟩)

/-- Lexicographic comparison of character lists by code point. -/
def charsLe : List Char → List Char → Bool
  | [], _ => true
  | _ :: _, [] => false
  | a :: as, b :: bs =>
    if a.toNat < b.toNat then true
    else if b.toNat < a.toNat then false
    else charsLe as bs

/-- Lexicographic string order used to model SQL `ORDER BY ... ASC`. -/
def strLe (a b : String) : Bool := charsLe a.data b.data

/-- Insert into a sorted list (auxiliary for `sortBy`). -/
def insertSorted (le : α → α → Bool) (x : α) : List α → List α
  | [] => [x]
  | y :: ys => if le x y then x :: y :: ys else y :: insertSorted le x ys

/-- Stable insertion sort; models SQL `ORDER BY`. -/
def sortBy (le : α → α → Bool) : List α → List α
  | [] => []
  | x :: xs => insertSorted le x (sortBy le xs)

/-- Global replacement of `'\n'` by `"<br>"`, the model of
`mensaje.replace(/\n/g, '<br>')` in `enviarCorreo`. -/
def replaceNewlines : List Char → List Char
  | [] => []
  | c :: rest =>
    if c = '\n' then '<' :: 'b' :: 'r' :: '>' :: replaceNewlines rest
    else c :: replaceNewlines rest

/-- Model of `mensaje.replace(/<[^>]*>/g, '')`: each occurrence of `'<'`,
followed by non-`'>'` characters and a closing `'>'`, is removed; an
unmatched `'<'` (no `'>'` afterwards) is kept, as the regex then fails to
match anywhere in the remainder.  The fuel argument is the length of the
list; every step consumes at least one character. -/
def stripTagsAux : Nat → List Char → List Char
  | 0, l => l
  | _ + 1, [] => []
  | fuel + 1, c :: rest =>
    if c = '<' ∧ rest.contains '>' then
      stripTagsAux fuel ((rest.dropWhile (fun ch => ch ≠ '>')).drop 1)
    else c :: stripTagsAux fuel rest

/-- Strip HTML tags, the model of `mensaje.replace(/<[^>]*>/g, '')`. -/
def stripTags (s : String) : String := ⟨stripTagsAux s.data.length s.data⟩

/-! ### Database rows and state -/

/-- Row of table `usuarios`. -/
structure Usuario where
  id : String
  nombre : String
  email : String
  contrasena : String
  deriving Repr, DecidableEq

/-- Row of table `aplicativos_base`. -/
structure AplicativoBase where
  id : String
  nombre : String
  url : String
  categoria : String
  deriving Repr, DecidableEq

/-- Row of table `aplicativos_rel`; `creado_en` models the `NOW()`
timestamp by a logical clock. -/
structure AplicativoRel where
  id : String
  usuario_id : String
  aplicativo_base_id : String
  creado_en : Nat
  deriving Repr, DecidableEq

/-- Row of table `plantillas_base`.  The four content columns are nullable
(`limpiarNotaAvances` stores SQL `NULL`), hence `Option String`. -/
structure PlantillaBase where
  id : String
  novedad : String
  nota_publica : Option String
  nota_interna : Option String
  nota_avances : Option String
  plantilla : Option String
  deriving Repr, DecidableEq

/-- Row of table `notas_despacho_rel`. -/
structure NotaRel where
  id : String
  usuario_id : String
  plantilla_id : String
  creado_en : Nat
  deriving Repr, DecidableEq

/-- The relational store. -/
structure DB where
  usuarios : List Usuario := []
  aplicativos_base : List AplicativoBase := []
  aplicativos_rel : List AplicativoRel := []
  plantillas_base : List PlantillaBase := []
  notas_despacho_rel : List NotaRel := []
  deriving Repr, DecidableEq

/-! ### Query execution model -/

/-- One `pool.query` call: the SQL text and the bound parameter values. -/
structure SqlQuery where
  text : String
  params : List String
  deriving Repr, DecidableEq

/-- Failure oracle: step `n` succeeds iff `o n = true`. -/
abbrev Oracle := Nat → Bool

/-- The all-success oracle (no database errors). -/
def allOk : Oracle := fun _ => true

/-- Execution context: database, uuid/clock counter, query step counter and
the trace of issued queries. -/
structure Ctx where
  db : DB
  ctr : Nat := 0
  qn : Nat := 0
  trace : List SqlQuery := []
  deriving Repr, DecidableEq

/-- Initial context for a single request against database `db`. -/
def initCtx (db : DB) : Ctx := { db := db }

/-- Issue one query: the SQL text and parameters are recorded in the trace,
then the oracle decides whether the statement succeeds (`.ok`) or raises
(`.error`).  Reads and writes of the store are performed by the caller on
the success branch only. -/
def qy (o : Oracle) (c : Ctx) (text : String) (ps : List String) : Except Ctx Ctx :=
  let c2 : Ctx := { c with qn := c.qn + 1, trace := c.trace ++ [{ text := text, params := ps }] }
  if o c.qn then .ok c2 else .error c2

/-- Model of `uuidv4()`: a fresh identifier from the counter. -/
def fresh (c : Ctx) : String × Ctx :=
  ("uuid-" ++ toString c.ctr, { c with ctr := c.ctr + 1 })

/-- Context carried by either branch of an `Except Ctx Ctx`. -/
def exCtx : Except Ctx Ctx → Ctx
  | .ok c => c
  | .error c => c

/-- Signed JWT payload `{ id, email }` produced by `jwt.sign`. -/
structure Jwt where
  id : String
  email : String
  deriving Repr, DecidableEq

/-- JSON response of the user-facing handlers: HTTP status, `mensaje`, and
the optional fields that the various handlers attach. -/
structure Resp where
  status : Nat
  mensaje : String := ""
  token : Option Jwt := none
  plantilla_eliminada : Option Bool := none
  aplicativo_eliminado : Option Bool := none
  created_id : Option String := none
  created_base_id : Option String := none
  nombre : Option String := none
  deriving Repr, DecidableEq

/-- The `500 Error en el servidor` response of `authController`. -/
def err500Servidor : Resp := { status := 500, mensaje := "Error en el servidor" }

/-! ### SQL texts (constants, exactly the statements of the source) -/

/-- Single-quote character, written via its code point. -/
def sq : String := ⟨[Char.ofNat 39]⟩

def sqlCountAplicativosBase : String := "SELECT COUNT(*) FROM aplicativos_base"

def sqlInsertAplicativoBase : String :=
  "INSERT INTO aplicativos_base (id, nombre, url, categoria) VALUES ($1, $2, $3, $4)"

def sqlCountPlantillasBase : String := "SELECT COUNT(*) FROM plantillas_base"

def sqlInsertPlantillaBase : String :=
  "INSERT INTO plantillas_base (id, novedad, nota_publica, nota_interna, nota_avances, plantilla) VALUES ($1, $2, $3, $4, $5, $6)"

def sqlSelectAplicativosBaseOrdenado : String :=
  "SELECT id FROM aplicativos_base ORDER BY categoria ASC, nombre ASC"

def sqlInsertAplicativoRel : String :=
  "INSERT INTO aplicativos_rel (id, usuario_id, aplicativo_base_id, creado_en) VALUES ($1, $2, $3, NOW())"

def sqlSelectPlantillasBaseOrdenado : String :=
  "SELECT id FROM plantillas_base ORDER BY id ASC"

def sqlInsertNotaRel : String :=
  "INSERT INTO notas_despacho_rel (id, usuario_id, plantilla_id, creado_en) VALUES ($1, $2, $3, NOW())"

def sqlSelectUsuarioPorEmail : String := "SELECT id FROM usuarios WHERE email = $1"

def sqlInsertUsuario : String :=
  "INSERT INTO usuarios (id, nombre, email, contraseña) VALUES ($1, $2, $3, $4)"

def sqlLoginSelect : String :=
  "SELECT id, nombre, email, contraseña FROM usuarios WHERE email = $1"

def sqlSelectContrasena : String := "SELECT contraseña FROM usuarios WHERE email = $1"

def sqlUpdateContrasena : String := "UPDATE usuarios SET contraseña = $1 WHERE email = $2"

def sqlSelectUsuarioPorId : String := "SELECT id FROM usuarios WHERE id = $1"

def sqlObtenerNotas : String :=
  "SELECT ndr.id, ndr.plantilla_id, pb.novedad, pb.nota_publica, pb.nota_interna, pb.nota_avances, pb.plantilla, ndr.creado_en FROM notas_despacho_rel ndr INNER JOIN plantillas_base pb ON ndr.plantilla_id = pb.id WHERE ndr.usuario_id = $1 ORDER BY ndr.creado_en DESC"

def sqlObtenerNotasAvances : String :=
  "SELECT ndr.id, ndr.plantilla_id, pb.novedad, pb.nota_avances, ndr.creado_en FROM notas_despacho_rel ndr INNER JOIN plantillas_base pb ON ndr.plantilla_id = pb.id WHERE ndr.usuario_id = $1 AND pb.nota_avances IS NOT NULL AND TRIM(pb.nota_avances) != " ++ sq ++ sq ++ " ORDER BY ndr.creado_en DESC"

def sqlEliminarNotaInfo : String :=
  "SELECT ndr.id as relacion_id, ndr.plantilla_id, pb.novedad, pb.nota_publica, pb.nota_interna, pb.nota_avances, pb.plantilla, COUNT(ndr2.id) as total_usuarios_con_esta_plantilla FROM notas_despacho_rel ndr INNER JOIN plantillas_base pb ON ndr.plantilla_id = pb.id LEFT JOIN notas_despacho_rel ndr2 ON pb.id = ndr2.plantilla_id WHERE ndr.id = $1 GROUP BY ndr.id, ndr.plantilla_id, pb.novedad, pb.nota_publica, pb.nota_interna, pb.nota_avances, pb.plantilla"

def sqlDeleteNotaRelPorId : String := "DELETE FROM notas_despacho_rel WHERE id = $1"

def sqlDeletePlantillaBasePorId : String := "DELETE FROM plantillas_base WHERE id = $1"

def sqlUpdatePlantilla : String :=
  "UPDATE plantillas_base SET novedad = $1, nota_publica = $2, nota_interna = $3, nota_avances = $4, plantilla = $5 WHERE id = $6"

def sqlLimpiarNotaAvances : String :=
  "UPDATE plantillas_base SET nota_avances = NULL WHERE id = $1"

def sqlSelectPlantillaPorId : String := "SELECT id FROM plantillas_base WHERE id = $1"

def sqlSelectNotaRelPorUsuarioPlantilla : String :=
  "SELECT id FROM notas_despacho_rel WHERE usuario_id = $1 AND plantilla_id = $2"

def sqlSelectPlantillaIdNovedad : String :=
  "SELECT id, novedad FROM plantillas_base WHERE id = $1"

def sqlDeleteNotaRelPorPlantilla : String :=
  "DELETE FROM notas_despacho_rel WHERE plantilla_id = $1"

def sqlPlantillasDisponibles : String :=
  "SELECT id, novedad, nota_publica, nota_interna, nota_avances, plantilla FROM plantillas_base WHERE UPPER(novedad) NOT IN (" ++ sq ++ "AVANCE" ++ sq ++ ") ORDER BY novedad ASC"

def sqlPlantillasIncorrectas : String :=
  "SELECT pb.id, pb.novedad, COUNT(ndr.id) as total_usuarios FROM plantillas_base pb LEFT JOIN notas_despacho_rel ndr ON pb.id = ndr.plantilla_id WHERE UPPER(pb.novedad) IN (" ++ sq ++ "AVANCE" ++ sq ++ ") GROUP BY pb.id, pb.novedad"

def sqlObtenerAplicativos : String :=
  "SELECT ar.id, ab.nombre, ab.url, ab.categoria, ar.creado_en FROM aplicativos_rel ar INNER JOIN aplicativos_base ab ON ar.aplicativo_base_id = ab.id WHERE ar.usuario_id = $1 ORDER BY ar.creado_en DESC"

def sqlSelectAplicativoBasePorId : String := "SELECT id FROM aplicativos_base WHERE id = $1"

def sqlSelectAplicativoRelPorUsuarioBase : String :=
  "SELECT id FROM aplicativos_rel WHERE usuario_id = $1 AND aplicativo_base_id = $2"

def sqlEliminarAplicativoInfo : String :=
  "SELECT ar.id as relacion_id, ar.usuario_id, ar.aplicativo_base_id, ab.nombre, COUNT(ar2.id) as total_usuarios_con_este_aplicativo FROM aplicativos_rel ar INNER JOIN aplicativos_base ab ON ar.aplicativo_base_id = ab.id LEFT JOIN aplicativos_rel ar2 ON ab.id = ar2.aplicativo_base_id WHERE ar.id = $1 GROUP BY ar.id, ar.usuario_id, ar.aplicativo_base_id, ab.nombre"

def sqlDeleteAplicativoRelPorId : String := "DELETE FROM aplicativos_rel WHERE id = $1"

def sqlDeleteAplicativoBasePorId : String := "DELETE FROM aplicativos_base WHERE id = $1"

def sqlAplicativosDisponibles : String :=
  "SELECT id, nombre, url, categoria FROM aplicativos_base ORDER BY categoria ASC, nombre ASC"

/-- Every SQL statement the backend can send: a fixed list of constants
mentioning no request data. -/
def allowedSql : List String :=
  [sqlCountAplicativosBase, sqlInsertAplicativoBase, sqlCountPlantillasBase,
   sqlInsertPlantillaBase, sqlSelectAplicativosBaseOrdenado, sqlInsertAplicativoRel,
   sqlSelectPlantillasBaseOrdenado, sqlInsertNotaRel, sqlSelectUsuarioPorEmail,
   sqlInsertUsuario, sqlLoginSelect, sqlSelectContrasena, sqlUpdateContrasena,
   sqlSelectUsuarioPorId, sqlObtenerNotas, sqlObtenerNotasAvances, sqlEliminarNotaInfo,
   sqlDeleteNotaRelPorId, sqlDeletePlantillaBasePorId, sqlUpdatePlantilla,
   sqlLimpiarNotaAvances, sqlSelectPlantillaPorId, sqlSelectNotaRelPorUsuarioPlantilla,
   sqlSelectPlantillaIdNovedad, sqlDeleteNotaRelPorPlantilla, sqlPlantillasDisponibles,
   sqlPlantillasIncorrectas, sqlObtenerAplicativos, sqlSelectAplicativoBasePorId,
   sqlSelectAplicativoRelPorUsuarioBase, sqlEliminarAplicativoInfo,
   sqlDeleteAplicativoRelPorId, sqlDeleteAplicativoBasePorId, sqlAplicativosDisponibles]

/-- The SQL texts of the queries issued so far. -/
def sqlTexts (c : Ctx) : List String := c.trace.map SqlQuery.text

/-- `TraceOK c c'` says that every SQL text in `c'`s trace either was
already in `c`s trace or is one of the fixed statements `allowedSql`. -/
def TraceOK (c c' : Ctx) : Prop :=
  ∀ t ∈ sqlTexts c', t ∈ sqlTexts c ∨ t ∈ allowedSql

/-- Every SQL text issued during a run lies in the fixed list
`allowedSql`; the list mentions no request data, so the texts are
independent of user input. -/
def SqlOK (c : Ctx) : Prop := ∀ t ∈ sqlTexts c, t ∈ allowedSql

/-! ### authController -/

/-- The five predefined aplicativos of `crearAplicativosBasePorDefecto`:
nombre, url, categoria. -/
def aplicativosDefecto : List (String × String × String) :=
  [("Gmail", "https://mail.google.com", "Correo"),
   ("Google Drive", "https://drive.google.com", "Almacenamiento"),
   ("Google Calendar", "https://calendar.google.com", "Calendario"),
   ("Microsoft Office", "https://office.com", "Productividad"),
   ("WhatsApp Web", "https://web.whatsapp.com", "Comunicación")]

/-- Insertion loop of `crearAplicativosBasePorDefecto`. -/
def insertaAplicativosDefecto (o : Oracle) :
    List (String × String × String) → Ctx → Except Ctx Ctx
  | [], c => .ok c
  | (n, u, cat) :: rest, c =>
    let (i, c) := fresh c
    match qy o c sqlInsertAplicativoBase [i, n, u, cat] with
    | .error c => .error c
    | .ok c =>
      insertaAplicativosDefecto o rest
        { c with db := { c.db with aplicativos_base := c.db.aplicativos_base ++ [⟨i, n, u, cat⟩] } }

/-- UTILIDAD 1 `crearAplicativosBasePorDefecto`: seeds `aplicativos_base`
when the table is empty; rethrows database errors. -/
def crearAplicativosBasePorDefecto (o : Oracle) (c : Ctx) : Except Ctx Ctx :=
  match qy o c sqlCountAplicativosBase [] with
  | .error c => .error c
  | .ok c =>
    if c.db.aplicativos_base.length > 0 then .ok c
    else insertaAplicativosDefecto o aplicativosDefecto c

/-- The three predefined plantillas of `crearPlantillasBasePorDefecto`:
novedad, nota_publica, nota_interna, nota_avances, plantilla. -/
def plantillasDefecto : List (String × String × String × String × String) :=
  [("Bienvenida", "...", "...", "...", "Plantilla de bienvenida para nuevos usuarios"),
   ("Nota General", "...", "...", "...", "Plantilla general para uso diario"),
   ("Recordatorio", "...", "...", "...", "Plantilla para recordatorios importantes")]

/-- Insertion loop of `crearPlantillasBasePorDefecto`. -/
def insertaPlantillasDefecto (o : Oracle) :
    List (String × String × String × String × String) → Ctx → Except Ctx Ctx
  | [], c => .ok c
  | (nov, npub, nint, nav, npl) :: rest, c =>
    let (i, c) := fresh c
    match qy o c sqlInsertPlantillaBase [i, nov, npub, nint, nav, npl] with
    | .error c => .error c
    | .ok c =>
      insertaPlantillasDefecto o rest
        { c with db := { c.db with plantillas_base :=
            c.db.plantillas_base ++ [⟨i, nov, some npub, some nint, some nav, some npl⟩] } }

/-- UTILIDAD 2 `crearPlantillasBasePorDefecto`: seeds `plantillas_base`
when the table is empty; rethrows database errors. -/
def crearPlantillasBasePorDefecto (o : Oracle) (c : Ctx) : Except Ctx Ctx :=
  match qy o c sqlCountPlantillasBase [] with
  | .error c => .error c
  | .ok c =>
    if c.db.plantillas_base.length > 0 then .ok c
    else insertaPlantillasDefecto o plantillasDefecto c

/-- Insertion loop of `asignarAplicativosPorDefecto`: one
`INSERT INTO aplicativos_rel` per aplicativo base id, with no check whether
the (usuario, aplicativo) pair already has a relation row. -/
def insertaAplicativosRel (o : Oracle) (usuario_id : String) :
    List String → Ctx → Except Ctx Ctx
  | [], c => .ok c
  | aid :: rest, c =>
    let (rid, c) := fresh c
    match qy o c sqlInsertAplicativoRel [rid, usuario_id, aid] with
    | .error c => .error c
    | .ok c =>
      insertaAplicativosRel o usuario_id rest
        { c with db := { c.db with aplicativos_rel := c.db.aplicativos_rel ++ [⟨rid, usuario_id, aid, c.ctr⟩] } }

/-- SQL `ORDER BY categoria ASC, nombre ASC` on `aplicativos_base`. -/
def ordAplicativoBase (a b : AplicativoBase) : Bool :=
  if a.categoria == b.categoria then strLe a.nombre b.nombre else strLe a.categoria b.categoria

/-- UTILIDAD 3 `asignarAplicativosPorDefecto`: ensures the base catalog
exists, then links every `aplicativos_base` row to the user. -/
def asignarAplicativosPorDefecto (o : Oracle) (usuario_id : String) (c : Ctx) : Except Ctx Ctx :=
  match crearAplicativosBasePorDefecto o c with
  | .error c => .error c
  | .ok c =>
    match qy o c sqlSelectAplicativosBaseOrdenado [] with
    | .error c => .error c
    | .ok c =>
      let rows := sortBy ordAplicativoBase c.db.aplicativos_base
      if rows.length = 0 then .ok c
      else insertaAplicativosRel o usuario_id (rows.map (·.id)) c

/-- Insertion loop of `asignarPlantillasPorDefecto`: one
`INSERT INTO notas_despacho_rel` per plantilla id, again with no
duplicate-pair check. -/
def insertaNotasRel (o : Oracle) (usuario_id : String) :
    List String → Ctx → Except Ctx Ctx
  | [], c => .ok c
  | pid :: rest, c =>
    let (rid, c) := fresh c
    match qy o c sqlInsertNotaRel [rid, usuario_id, pid] with
    | .error c => .error c
    | .ok c =>
      insertaNotasRel o usuario_id rest
        { c with db := { c.db with notas_despacho_rel := c.db.notas_despacho_rel ++ [⟨rid, usuario_id, pid, c.ctr⟩] } }

/-- UTILIDAD 4 `asignarPlantillasPorDefecto`. -/
def asignarPlantillasPorDefecto (o : Oracle) (usuario_id : String) (c : Ctx) : Except Ctx Ctx :=
  match crearPlantillasBasePorDefecto o c with
  | .error c => .error c
  | .ok c =>
    match qy o c sqlSelectPlantillasBaseOrdenado [] with
    | .error c => .error c
    | .ok c =>
      let ids := sortBy strLe (c.db.plantillas_base.map (·.id))
      if ids.length = 0 then .ok c
      else insertaNotasRel o usuario_id ids c

/-- Body of `POST /registro`. -/
structure RegistroReq where
  nombre : String
  email : String
  contrasena : String
  deriving Repr, DecidableEq

/-- FUNCIÓN 5 `registrarUsuario`: duplicate-email check, user INSERT, then
default-content assignment inside an inner try/catch whose error is only
logged (the registration succeeds regardless), and finally the 201
response with a signed token. -/
def registrarUsuario (o : Oracle) (req : RegistroReq) (c : Ctx) : Resp × Ctx :=
  match qy o c sqlSelectUsuarioPorEmail [req.email] with
  | .error c => (err500Servidor, c)
  | .ok c =>
    if (c.db.usuarios.filter (fun u => u.email == req.email)).length > 0 then
      ({ status := 400, mensaje := "El correo ya está registrado" }, c)
    else
      let (uid, c) := fresh c
      match qy o c sqlInsertUsuario [uid, req.nombre, req.email, req.contrasena] with
      | .error c => (err500Servidor, c)
      | .ok c =>
        let c := { c with db := { c.db with usuarios := c.db.usuarios ++ [⟨uid, req.nombre, req.email, req.contrasena⟩] } }
        let c :=
          match asignarPlantillasPorDefecto o uid c with
          | .error c => c
          | .ok c =>
            match asignarAplicativosPorDefecto o uid c with
            | .error c => c
            | .ok c => c
        ({ status := 201, mensaje := "Registro exitoso", token := some ⟨uid, req.email⟩ }, c)

/-- Body of `POST /login`. -/
structure LoginReq where
  email : String
  contrasena : String
  deriving Repr, DecidableEq

/-- FUNCIÓN 6 `loginUsuario`: selects by email and compares the stored
`contraseña` by string equality (no hashing). -/
def loginUsuario (o : Oracle) (req : LoginReq) (c : Ctx) : Resp × Ctx :=
  match qy o c sqlLoginSelect [req.email] with
  | .error c => (err500Servidor, c)
  | .ok c =>
    match c.db.usuarios.filter (fun u => u.email == req.email) with
    | [] => ({ status := 401, mensaje := "Credenciales incorrectas" }, c)
    | u :: _ =>
      if u.contrasena != req.contrasena then
        ({ status := 401, mensaje := "Credenciales incorrectas" }, c)
      else
        ({ status := 200, mensaje := "Inicio de sesión exitoso", token := some ⟨u.id, u.email⟩ }, c)

/-- Body of `PUT /cambiar-contraseña`. -/
structure CambioReq where
  actual : String
  nueva : String
  deriving Repr, DecidableEq

/-- FUNCIÓN 7 `cambiarContraseña` (protected route; `usuario` is the
payload attached by `verificarToken`). -/
def cambiarContrasena (o : Oracle) (req : CambioReq) (usuario : Jwt) (c : Ctx) : Resp × Ctx :=
  match qy o c sqlSelectContrasena [usuario.email] with
  | .error c => (err500Servidor, c)
  | .ok c =>
    match c.db.usuarios.filter (fun u => u.email == usuario.email) with
    | [] => ({ status := 401, mensaje := "Contraseña actual incorrecta" }, c)
    | u :: _ =>
      if u.contrasena != req.actual then
        ({ status := 401, mensaje := "Contraseña actual incorrecta" }, c)
      else
        match qy o c sqlUpdateContrasena [req.nueva, usuario.email] with
        | .error c => (err500Servidor, c)
        | .ok c =>
          let nuevos := c.db.usuarios.map
            (fun u => if u.email == usuario.email then { u with contrasena := req.nueva } else u)
          let c := { c with db := { c.db with usuarios := nuevos } }
          ({ status := 200, mensaje := "Contraseña actualizada correctamente" }, c)

/-- Body of `PUT /recuperar-contrasena`. -/
structure RecuperarReq where
  email : String
  nueva : String
  deriving Repr, DecidableEq

/-- FUNCIÓN 8 `recuperarContraseña` (public route). -/
def recuperarContrasena (o : Oracle) (req : RecuperarReq) (c : Ctx) : Resp × Ctx :=
  match qy o c sqlSelectUsuarioPorEmail [req.email] with
  | .error c => (err500Servidor, c)
  | .ok c =>
    match c.db.usuarios.filter (fun u => u.email == req.email) with
    | [] => ({ status := 404, mensaje := "Usuario no encontrado" }, c)
    | _ :: _ =>
      match qy o c sqlUpdateContrasena [req.nueva, req.email] with
      | .error c => (err500Servidor, c)
      | .ok c =>
        let nuevos := c.db.usuarios.map
          (fun u => if u.email == req.email then { u with contrasena := req.nueva } else u)
        let c := { c with db := { c.db with usuarios := nuevos } }
        ({ status := 200, mensaje := "Contraseña cambiada correctamente" }, c)

/-- FUNCIÓN 9 `asignarContenidoDefecto` (maintenance route): assigns the
default content to an existing user; here the assignment errors are NOT
swallowed (500). -/
def asignarContenidoDefecto (o : Oracle) (usuario_id : Option String) (c : Ctx) : Resp × Ctx :=
  if !(truthy usuario_id) then
    ({ status := 400, mensaje := "Se requiere usuario_id" }, c)
  else
    let uid := getStr usuario_id
    match qy o c sqlSelectUsuarioPorId [uid] with
    | .error c => ({ status := 500, mensaje := "Error al asignar contenido por defecto" }, c)
    | .ok c =>
      match c.db.usuarios.filter (fun u => u.id == uid) with
      | [] => ({ status := 404, mensaje := "Usuario no encontrado" }, c)
      | _ :: _ =>
        match asignarPlantillasPorDefecto o uid c with
        | .error c => ({ status := 500, mensaje := "Error al asignar contenido por defecto" }, c)
        | .ok c =>
          match asignarAplicativosPorDefecto o uid c with
          | .error c => ({ status := 500, mensaje := "Error al asignar contenido por defecto" }, c)
          | .ok c =>
            ({ status := 200, mensaje := "Contenido por defecto asignado exitosamente al usuario" }, c)

/-! ### notasController -/

/-- Joined row returned by `obtenerNotas`. -/
structure NotaView where
  id : String
  plantilla_id : String
  novedad : String
  nota_publica : Option String
  nota_interna : Option String
  nota_avances : Option String
  plantilla : Option String
  creado_en : Nat
  deriving Repr, DecidableEq

/-- Joined row returned by `obtenerNotasAvances`. -/
structure NotaAvanceView where
  id : String
  plantilla_id : String
  novedad : String
  nota_avances : Option String
  creado_en : Nat
  deriving Repr, DecidableEq

/-- SQL `ORDER BY creado_en DESC` comparison. -/
def ordCreadoDesc (a b : Nat) : Bool := Nat.ble b a

/-- FUNCIÓN 1 `obtenerNotas`: inner join of the user's relation rows with
`plantillas_base`, newest first. -/
def obtenerNotas (o : Oracle) (usuario_id : String) (c : Ctx) :
    Sum Resp (List NotaView) × Ctx :=
  match qy o c sqlObtenerNotas [usuario_id] with
  | .error c => (.inl { status := 500, mensaje := "Error al obtener las notas" }, c)
  | .ok c =>
    let rows := (c.db.notas_despacho_rel.filter (fun r => r.usuario_id == usuario_id)).filterMap
      (fun r => (c.db.plantillas_base.find? (fun p => p.id == r.plantilla_id)).map
        (fun p => NotaView.mk r.id r.plantilla_id p.novedad p.nota_publica p.nota_interna
          p.nota_avances p.plantilla r.creado_en))
    (.inr (sortBy (fun a b => ordCreadoDesc a.creado_en b.creado_en) rows), c)

/-- FUNCIÓN 2 `obtenerNotasAvances`: like `obtenerNotas` but keeps only
rows whose `nota_avances` is non-NULL and non-blank. -/
def obtenerNotasAvances (o : Oracle) (usuario_id : String) (c : Ctx) :
    Sum Resp (List NotaAvanceView) × Ctx :=
  match qy o c sqlObtenerNotasAvances [usuario_id] with
  | .error c => (.inl { status := 500, mensaje := "Error al obtener notas de avances" }, c)
  | .ok c =>
    let rows := (c.db.notas_despacho_rel.filter (fun r => r.usuario_id == usuario_id)).filterMap
      (fun r => (c.db.plantillas_base.find? (fun p => p.id == r.plantilla_id)).bind
        (fun p => if notBlankOpt p.nota_avances then
            some (NotaAvanceView.mk r.id r.plantilla_id p.novedad p.nota_avances r.creado_en)
          else none))
    (.inr (sortBy (fun a b => ordCreadoDesc a.creado_en b.creado_en) rows), c)

/-- Body of `POST /api/notas` (`agregarNota`). -/
structure AgregarNotaReq where
  usuario_id : Option String
  novedad : Option String
  nota_publica : Option String := none
  nota_interna : Option String := none
  nota_avances : Option String := none
  plantilla : Option String := none
  deriving Repr, DecidableEq

/-- The `nombresIncorrectos` literal of `agregarNota`. -/
def nombresIncorrectos : List String := ["AVANCE", "avance", "Avance"]

/-- The 400 message of `agregarNota` for a forbidden template name. -/
def msgNombreInvalido : String :=
  "El nombre " ++ sq ++ "AVANCE" ++ sq ++ " no es válido para una plantilla base. Use un nombre descriptivo."

/-- FUNCIÓN 3 `agregarNota`: creates a personalised `plantillas_base` row
plus the user relation; rejects the three literal names in
`nombresIncorrectos`. -/
def agregarNota (o : Oracle) (req : AgregarNotaReq) (c : Ctx) : Resp × Ctx :=
  if !(truthy req.usuario_id) || !(truthy req.novedad) then
    ({ status := 400, mensaje := "Se requieren usuario_id y novedad como mínimo" }, c)
  else if nombresIncorrectos.contains (getStr req.novedad) then
    ({ status := 400, mensaje := msgNombreInvalido }, c)
  else
    let uid := getStr req.usuario_id
    match qy o c sqlSelectUsuarioPorId [uid] with
    | .error c => ({ status := 500, mensaje := "Error al agregar nota personalizada" }, c)
    | .ok c =>
      if (c.db.usuarios.filter (fun u => u.id == uid)).length = 0 then
        ({ status := 404, mensaje := "Usuario no encontrado" }, c)
      else
        let (pid, c) := fresh c
        match qy o c sqlInsertPlantillaBase
            [pid, getStr req.novedad, getStr req.nota_publica, getStr req.nota_interna,
             getStr req.nota_avances, getStr req.plantilla] with
        | .error c => ({ status := 500, mensaje := "Error al agregar nota personalizada" }, c)
        | .ok c =>
          let fila : PlantillaBase :=
            ⟨pid, getStr req.novedad, some (getStr req.nota_publica), some (getStr req.nota_interna),
             some (getStr req.nota_avances), some (getStr req.plantilla)⟩
          let c := { c with db := { c.db with plantillas_base := c.db.plantillas_base ++ [fila] } }
          let (rid, c) := fresh c
          match qy o c sqlInsertNotaRel [rid, uid, pid] with
          | .error c => ({ status := 500, mensaje := "Error al agregar nota personalizada" }, c)
          | .ok c =>
            let c := { c with db := { c.db with notas_despacho_rel := c.db.notas_despacho_rel ++ [⟨rid, uid, pid, c.ctr⟩] } }
            ({ status := 201, mensaje := "Nota personalizada creada exitosamente",
               created_id := some rid, created_base_id := some pid }, c)

/-- Body of `POST /api/notas/asignar` (`asignarNota`). -/
structure AsignarNotaReq where
  usuario_id : Option String
  plantilla_id : Option String
  deriving Repr, DecidableEq

/-- FUNCIÓN 4 `asignarNota`: links an existing plantilla to the user;
responds 409 when the relation row already exists.  The three validation
SELECTs of the source's `Promise.all` are issued in order. -/
def asignarNota (o : Oracle) (req : AsignarNotaReq) (c : Ctx) : Resp × Ctx :=
  if !(truthy req.usuario_id) || !(truthy req.plantilla_id) then
    ({ status := 400, mensaje := "Se requieren usuario_id y plantilla_id" }, c)
  else
    let uid := getStr req.usuario_id
    let pid := getStr req.plantilla_id
    match qy o c sqlSelectUsuarioPorId [uid] with
    | .error c => ({ status := 500, mensaje := "Error al asignar nota" }, c)
    | .ok c =>
      match qy o c sqlSelectPlantillaPorId [pid] with
      | .error c => ({ status := 500, mensaje := "Error al asignar nota" }, c)
      | .ok c =>
        match qy o c sqlSelectNotaRelPorUsuarioPlantilla [uid, pid] with
        | .error c => ({ status := 500, mensaje := "Error al asignar nota" }, c)
        | .ok c =>
          if (c.db.usuarios.filter (fun u => u.id == uid)).length = 0 then
            ({ status := 404, mensaje := "Usuario no encontrado" }, c)
          else if (c.db.plantillas_base.filter (fun p => p.id == pid)).length = 0 then
            ({ status := 404, mensaje := "Plantilla base no encontrada" }, c)
          else if (c.db.notas_despacho_rel.filter
              (fun r => r.usuario_id == uid && r.plantilla_id == pid)).length > 0 then
            ({ status := 409, mensaje := "La nota ya está agregada para este usuario" }, c)
          else
            let (rid, c) := fresh c
            match qy o c sqlInsertNotaRel [rid, uid, pid] with
            | .error c => ({ status := 500, mensaje := "Error al asignar nota" }, c)
            | .ok c =>
              let c := { c with db := { c.db with notas_despacho_rel := c.db.notas_despacho_rel ++ [⟨rid, uid, pid, c.ctr⟩] } }
              ({ status := 201, mensaje := "Nota asignada exitosamente", created_id := some rid }, c)

/-- Body of `PUT /api/notas/plantilla/:id` (`modificarPlantilla`); a field
absent from the body is stored as NULL by the parameterized UPDATE (the
non-nullable `novedad` is modelled as the empty string in that case). -/
structure ModificarPlantillaReq where
  novedad : Option String := none
  nota_publica : Option String := none
  nota_interna : Option String := none
  nota_avances : Option String := none
  plantilla : Option String := none
  deriving Repr, DecidableEq

/-- FUNCIÓN 5 `modificarPlantilla`. -/
def modificarPlantilla (o : Oracle) (id : String) (req : ModificarPlantillaReq) (c : Ctx) :
    Resp × Ctx :=
  match qy o c sqlUpdatePlantilla
      [getStr req.novedad, getStr req.nota_publica, getStr req.nota_interna,
       getStr req.nota_avances, getStr req.plantilla, id] with
  | .error c => ({ status := 500, mensaje := "Error al modificar plantilla" }, c)
  | .ok c =>
    let rowCount := (c.db.plantillas_base.filter (fun p => p.id == id)).length
    let nuevas := c.db.plantillas_base.map
      (fun p => if p.id == id then
          PlantillaBase.mk p.id (getStr req.novedad) req.nota_publica req.nota_interna
            req.nota_avances req.plantilla
        else p)
    let c := { c with db := { c.db with plantillas_base := nuevas } }
    if rowCount = 0 then
      ({ status := 404, mensaje := "Plantilla no encontrada o no se modificó nada" }, c)
    else
      ({ status := 200, mensaje := "Plantilla actualizada correctamente" }, c)

/-- The `esNotaAvancesPura` condition of `eliminarNota`: `nota_avances`
non-blank while the other three content columns are blank or NULL. -/
def esNotaAvancesPura (p : PlantillaBase) : Bool :=
  notBlankOpt p.nota_avances && !(notBlankOpt p.nota_publica) &&
    !(notBlankOpt p.nota_interna) && !(notBlankOpt p.plantilla)

/-- FUNCIÓN 6 `eliminarNota` (deletion with auto-cleanup): deletes the
relation row and, when the plantilla counts as personalised
(`total_usuarios <= 1 || esNotaAvancesPura`), also the shared
`plantillas_base` row.  The two DELETEs are separate statements with no
enclosing transaction. -/
def eliminarNota (o : Oracle) (id : Option String) (c : Ctx) : Resp × Ctx :=
  if !(truthy id) then
    ({ status := 400, mensaje := "Se requiere el ID de la nota" }, c)
  else
    let i := getStr id
    match qy o c sqlEliminarNotaInfo [i] with
    | .error c => ({ status := 500, mensaje := "Error al eliminar nota" }, c)
    | .ok c =>
      match c.db.notas_despacho_rel.find? (fun r => r.id == i) with
      | none => ({ status := 404, mensaje := "Nota no encontrada" }, c)
      | some r =>
        match c.db.plantillas_base.find? (fun p => p.id == r.plantilla_id) with
        | none => ({ status := 404, mensaje := "Nota no encontrada" }, c)
        | some p =>
          let total := (c.db.notas_despacho_rel.filter (fun r2 => r2.plantilla_id == r.plantilla_id)).length
          let esPersonalizada := decide (total ≤ 1) || esNotaAvancesPura p
          match qy o c sqlDeleteNotaRelPorId [i] with
          | .error c => ({ status := 500, mensaje := "Error al eliminar nota" }, c)
          | .ok c =>
            let rowCount := (c.db.notas_despacho_rel.filter (fun r2 => r2.id == i)).length
            let c := { c with db := { c.db with notas_despacho_rel := c.db.notas_despacho_rel.filter (fun r2 => !(r2.id == i)) } }
            if rowCount = 0 then
              ({ status := 404, mensaje := "No se pudo eliminar la relación de la nota" }, c)
            else if esPersonalizada then
              match qy o c sqlDeletePlantillaBasePorId [r.plantilla_id] with
              | .error c => ({ status := 500, mensaje := "Error al eliminar nota" }, c)
              | .ok c =>
                let c := { c with db := { c.db with plantillas_base := c.db.plantillas_base.filter (fun p2 => !(p2.id == r.plantilla_id)) } }
                ({ status := 200, mensaje := "Nota eliminada correctamente",
                   plantilla_eliminada := some true, nombre := some p.novedad }, c)
            else
              ({ status := 200, mensaje := "Nota eliminada correctamente",
                 plantilla_eliminada := some false, nombre := some p.novedad }, c)

/-- FUNCIÓN 7 `limpiarNotaAvances`: stores NULL in `nota_avances`. -/
def limpiarNotaAvances (o : Oracle) (id : String) (c : Ctx) : Resp × Ctx :=
  match qy o c sqlLimpiarNotaAvances [id] with
  | .error c => ({ status := 500, mensaje := "Error al limpiar nota de avances" }, c)
  | .ok c =>
    let rowCount := (c.db.plantillas_base.filter (fun p => p.id == id)).length
    let nuevas := c.db.plantillas_base.map
      (fun p => if p.id == id then { p with nota_avances := none } else p)
    let c := { c with db := { c.db with plantillas_base := nuevas } }
    if rowCount = 0 then ({ status := 404, mensaje := "Plantilla no encontrada" }, c)
    else ({ status := 200, mensaje := "Nota de avances eliminada correctamente" }, c)

/-- FUNCIÓN 8 `eliminarPlantillaAdicional` (forced deletion): removes every
relation row of the plantilla, then the plantilla itself. -/
def eliminarPlantillaAdicional (o : Oracle) (id : Option String) (c : Ctx) : Resp × Ctx :=
  if !(truthy id) then
    ({ status := 400, mensaje := "Se requiere el ID de la plantilla" }, c)
  else
    let i := getStr id
    match qy o c sqlSelectPlantillaIdNovedad [i] with
    | .error c => ({ status := 500, mensaje := "Error al eliminar plantilla" }, c)
    | .ok c =>
      match c.db.plantillas_base.find? (fun p => p.id == i) with
      | none => ({ status := 404, mensaje := "Plantilla no encontrada" }, c)
      | some p =>
        match qy o c sqlDeleteNotaRelPorPlantilla [i] with
        | .error c => ({ status := 500, mensaje := "Error al eliminar plantilla" }, c)
        | .ok c =>
          let c := { c with db := { c.db with notas_despacho_rel := c.db.notas_despacho_rel.filter (fun r => !(r.plantilla_id == i)) } }
          match qy o c sqlDeletePlantillaBasePorId [i] with
          | .error c => ({ status := 500, mensaje := "Error al eliminar plantilla" }, c)
          | .ok c =>
            let c := { c with db := { c.db with plantillas_base := c.db.plantillas_base.filter (fun p2 => !(p2.id == i)) } }
            ({ status := 200, mensaje := "Plantilla eliminada completamente", nombre := some p.novedad }, c)

/-- FUNCIÓN 9 `obtenerPlantillasDisponibles`: the catalog of
`plantillas_base`, excluding every row whose `UPPER(novedad)` is
`AVANCE`, ordered by `novedad`. -/
def obtenerPlantillasDisponibles (o : Oracle) (c : Ctx) :
    Sum Resp (List PlantillaBase) × Ctx :=
  match qy o c sqlPlantillasDisponibles [] with
  | .error c => (.inl { status := 500, mensaje := "Error al obtener plantillas disponibles" }, c)
  | .ok c =>
    let rows := sortBy (fun a b => strLe a.novedad b.novedad)
      (c.db.plantillas_base.filter (fun p => !(upperStr p.novedad == "AVANCE")))
    (.inr rows, c)

/-- Deletion loop of `limpiarPlantillasIncorrectas`. -/
def limpiaPlantillasLoop (o : Oracle) : List String → Ctx → Except Ctx Ctx
  | [], c => .ok c
  | pid :: rest, c =>
    match qy o c sqlDeleteNotaRelPorPlantilla [pid] with
    | .error c => .error c
    | .ok c =>
      let c := { c with db := { c.db with notas_despacho_rel := c.db.notas_despacho_rel.filter (fun r => !(r.plantilla_id == pid)) } }
      match qy o c sqlDeletePlantillaBasePorId [pid] with
      | .error c => .error c
      | .ok c =>
        limpiaPlantillasLoop o rest
          { c with db := { c.db with plantillas_base := c.db.plantillas_base.filter (fun p => !(p.id == pid)) } }

/-- FUNCIÓN 10 `limpiarPlantillasIncorrectas` (maintenance): deletes every
plantilla whose `UPPER(novedad)` is `AVANCE` together with its relations. -/
def limpiarPlantillasIncorrectas (o : Oracle) (c : Ctx) : Resp × Ctx :=
  match qy o c sqlPlantillasIncorrectas [] with
  | .error c => ({ status := 500, mensaje := "Error al limpiar plantillas incorrectas" }, c)
  | .ok c =>
    let malas := (c.db.plantillas_base.filter (fun p => upperStr p.novedad == "AVANCE")).map (fun p => p.id)
    if malas.length = 0 then
      ({ status := 200, mensaje := "No hay plantillas con nombres incorrectos" }, c)
    else
      match limpiaPlantillasLoop o malas c with
      | .error c => ({ status := 500, mensaje := "Error al limpiar plantillas incorrectas" }, c)
      | .ok c =>
        ({ status := 200, mensaje := "Se eliminaron " ++ toString malas.length ++ " plantillas con nombres incorrectos" }, c)

/-! ### aplicativosController -/

/-- Joined row returned by `obtenerAplicativos`. -/
structure AplicativoView where
  id : String
  nombre : String
  url : String
  categoria : String
  creado_en : Nat
  deriving Repr, DecidableEq

/-- FUNCIÓN 1 `obtenerAplicativos`: the user's aplicativos, newest first. -/
def obtenerAplicativos (o : Oracle) (usuario_id : String) (c : Ctx) :
    Sum Resp (List AplicativoView) × Ctx :=
  match qy o c sqlObtenerAplicativos [usuario_id] with
  | .error c => (.inl { status := 500, mensaje := "Error al obtener aplicativos" }, c)
  | .ok c =>
    let rows := (c.db.aplicativos_rel.filter (fun r => r.usuario_id == usuario_id)).filterMap
      (fun r => (c.db.aplicativos_base.find? (fun b => b.id == r.aplicativo_base_id)).map
        (fun b => AplicativoView.mk r.id b.nombre b.url b.categoria r.creado_en))
    (.inr (sortBy (fun a b => ordCreadoDesc a.creado_en b.creado_en) rows), c)

/-- Body of `POST /api/aplicativos` (`agregarAplicativo`). -/
structure AgregarAplicativoReq where
  usuario_id : Option String
  nombre : Option String
  url : Option String := none
  categoria : Option String := none
  deriving Repr, DecidableEq

/-- FUNCIÓN 2 `agregarAplicativo`: double insertion of a personalised base
row and its user relation. -/
def agregarAplicativo (o : Oracle) (req : AgregarAplicativoReq) (c : Ctx) : Resp × Ctx :=
  if !(truthy req.usuario_id) || !(truthy req.nombre) then
    ({ status := 400, mensaje := "Se requieren usuario_id y nombre como mínimo" }, c)
  else
    let uid := getStr req.usuario_id
    match qy o c sqlSelectUsuarioPorId [uid] with
    | .error c => ({ status := 500, mensaje := "Error al agregar aplicativo personalizado" }, c)
    | .ok c =>
      if (c.db.usuarios.filter (fun u => u.id == uid)).length = 0 then
        ({ status := 404, mensaje := "Usuario no encontrado" }, c)
      else
        let (aid, c) := fresh c
        match qy o c sqlInsertAplicativoBase
            [aid, getStr req.nombre, getStr req.url, orDefault req.categoria "Personalizado"] with
        | .error c => ({ status := 500, mensaje := "Error al agregar aplicativo personalizado" }, c)
        | .ok c =>
          let fila : AplicativoBase :=
            ⟨aid, getStr req.nombre, getStr req.url, orDefault req.categoria "Personalizado"⟩
          let c := { c with db := { c.db with aplicativos_base := c.db.aplicativos_base ++ [fila] } }
          let (rid, c) := fresh c
          match qy o c sqlInsertAplicativoRel [rid, uid, aid] with
          | .error c => ({ status := 500, mensaje := "Error al agregar aplicativo personalizado" }, c)
          | .ok c =>
            let c := { c with db := { c.db with aplicativos_rel := c.db.aplicativos_rel ++ [⟨rid, uid, aid, c.ctr⟩] } }
            ({ status := 201, mensaje := "Aplicativo personalizado creado exitosamente",
               created_id := some rid, created_base_id := some aid }, c)

/-- Body of `POST /api/aplicativos/asignar` (`asignarAplicativo`). -/
structure AsignarAplicativoReq where
  usuario_id : Option String
  aplicativo_base_id : Option String
  deriving Repr, DecidableEq

/-- FUNCIÓN 3 `asignarAplicativo`: links an existing base row to the user;
responds 409 when the relation row already exists. -/
def asignarAplicativo (o : Oracle) (req : AsignarAplicativoReq) (c : Ctx) : Resp × Ctx :=
  if !(truthy req.usuario_id) || !(truthy req.aplicativo_base_id) then
    ({ status := 400, mensaje := "Se requieren usuario_id y aplicativo_base_id" }, c)
  else
    let uid := getStr req.usuario_id
    let bid := getStr req.aplicativo_base_id
    match qy o c sqlSelectUsuarioPorId [uid] with
    | .error c => ({ status := 500, mensaje := "Error al asignar aplicativo" }, c)
    | .ok c =>
      if (c.db.usuarios.filter (fun u => u.id == uid)).length = 0 then
        ({ status := 404, mensaje := "Usuario no encontrado" }, c)
      else
        match qy o c sqlSelectAplicativoBasePorId [bid] with
        | .error c => ({ status := 500, mensaje := "Error al asignar aplicativo" }, c)
        | .ok c =>
          if (c.db.aplicativos_base.filter (fun b => b.id == bid)).length = 0 then
            ({ status := 404, mensaje := "Aplicativo base no encontrado" }, c)
          else
            match qy o c sqlSelectAplicativoRelPorUsuarioBase [uid, bid] with
            | .error c => ({ status := 500, mensaje := "Error al asignar aplicativo" }, c)
            | .ok c =>
              if (c.db.aplicativos_rel.filter
                  (fun r => r.usuario_id == uid && r.aplicativo_base_id == bid)).length > 0 then
                ({ status := 409, mensaje := "El aplicativo ya está agregado para este usuario" }, c)
              else
                let (rid, c) := fresh c
                match qy o c sqlInsertAplicativoRel [rid, uid, bid] with
                | .error c => ({ status := 500, mensaje := "Error al asignar aplicativo" }, c)
                | .ok c =>
                  let c := { c with db := { c.db with aplicativos_rel := c.db.aplicativos_rel ++ [⟨rid, uid, bid, c.ctr⟩] } }
                  ({ status := 201, mensaje := "Aplicativo asignado exitosamente", created_id := some rid }, c)

/-- FUNCIÓN 4 `eliminarAplicativo` (deletion with auto-cleanup): deletes
the relation row and, when the deleted relation was the only reference
(`total_usuarios === 1`), also the shared `aplicativos_base` row.  Again
two separate DELETE statements, no transaction. -/
def eliminarAplicativo (o : Oracle) (id : Option String) (c : Ctx) : Resp × Ctx :=
  if !(truthy id) then
    ({ status := 400, mensaje := "Se requiere el ID del aplicativo" }, c)
  else
    let i := getStr id
    match qy o c sqlEliminarAplicativoInfo [i] with
    | .error c => ({ status := 500, mensaje := "Error al eliminar aplicativo" }, c)
    | .ok c =>
      match c.db.aplicativos_rel.find? (fun r => r.id == i) with
      | none => ({ status := 404, mensaje := "Aplicativo no encontrado para este usuario" }, c)
      | some r =>
        match c.db.aplicativos_base.find? (fun b => b.id == r.aplicativo_base_id) with
        | none => ({ status := 404, mensaje := "Aplicativo no encontrado para este usuario" }, c)
        | some b =>
          let total := (c.db.aplicativos_rel.filter (fun r2 => r2.aplicativo_base_id == r.aplicativo_base_id)).length
          let esPersonalizado := total == 1
          match qy o c sqlDeleteAplicativoRelPorId [i] with
          | .error c => ({ status := 500, mensaje := "Error al eliminar aplicativo" }, c)
          | .ok c =>
            let rowCount := (c.db.aplicativos_rel.filter (fun r2 => r2.id == i)).length
            let c := { c with db := { c.db with aplicativos_rel := c.db.aplicativos_rel.filter (fun r2 => !(r2.id == i)) } }
            if rowCount = 0 then
              ({ status := 404, mensaje := "No se pudo eliminar la relación del aplicativo" }, c)
            else if esPersonalizado then
              match qy o c sqlDeleteAplicativoBasePorId [r.aplicativo_base_id] with
              | .error c => ({ status := 500, mensaje := "Error al eliminar aplicativo" }, c)
              | .ok c =>
                let c := { c with db := { c.db with aplicativos_base := c.db.aplicativos_base.filter (fun b2 => !(b2.id == r.aplicativo_base_id)) } }
                ({ status := 200, mensaje := "Aplicativo eliminado correctamente",
                   aplicativo_eliminado := some true, nombre := some b.nombre }, c)
            else
              ({ status := 200, mensaje := "Aplicativo eliminado correctamente",
                 aplicativo_eliminado := some false, nombre := some b.nombre }, c)

/-- FUNCIÓN 5 `obtenerAplicativosDisponibles`: the whole base catalog. -/
def obtenerAplicativosDisponibles (o : Oracle) (c : Ctx) :
    Sum Resp (List AplicativoBase) × Ctx :=
  match qy o c sqlAplicativosDisponibles [] with
  | .error c => (.inl { status := 500, mensaje := "Error al obtener aplicativos disponibles" }, c)
  | .ok c =>
    (.inr (sortBy ordAplicativoBase c.db.aplicativos_base), c)

/-! ### mailController (`enviarCorreo`) -/

/-- An uploaded file as provided by the upload middleware (`req.files`). -/
structure MailFile where
  originalname : String
  buffer : String
  mimetype : String
  deriving Repr, DecidableEq

/-- Body and files of `POST` to the mail route. -/
structure MailReq where
  para : Option String := none
  cc : Option String := none
  asunto : Option String := none
  mensaje : Option String := none
  archivos_info : Option String := none
  files : List MailFile := []
  deriving Repr, DecidableEq

/-- An attachment handed to nodemailer. -/
structure Attachment where
  filename : String
  content : String
  contentType : String
  deriving Repr, DecidableEq

/-- The `mailOptions` object handed to `transporter.sendMail`; `toAddr`
models the `to` field (a Lean keyword). -/
structure MailOptions where
  toAddr : String
  cc : Option String
  subject : String
  text : String
  html : String
  attachments : List Attachment
  deriving Repr, DecidableEq

/-- Response of the mail endpoints (`success`/`message`). -/
structure MailResp where
  status : Nat
  success : Bool
  message : String
  deriving Repr, DecidableEq

/-- FUNCIÓN 1 `enviarCorreo`: validates the three required fields, decides
whether the message body is HTML (`mensaje` contains both `'<'` and
`'>'`), builds the text and HTML alternatives, and sends exactly one mail.
`sendOk` models whether `transporter.sendMail` succeeds; the returned list
holds the successfully sent messages. -/
def enviarCorreo (sendOk : Bool) (req : MailReq) : MailResp × List MailOptions :=
  if !(truthy req.para) || !(truthy req.asunto) || !(truthy req.mensaje) then
    ({ status := 400, success := false,
       message := "Los campos para, asunto y mensaje son requeridos" }, [])
  else
    let mensaje := getStr req.mensaje
    let attachments := req.files.map (fun f => Attachment.mk f.originalname f.buffer f.mimetype)
    let isHTML := mensaje.data.contains '<' && mensaje.data.contains '>'
    let mail : MailOptions :=
      { toAddr := getStr req.para
        cc := req.cc
        subject := getStr req.asunto
        text := if isHTML then stripTags mensaje else mensaje
        html := if isHTML then mensaje else ⟨replaceNewlines mensaje.data⟩
        attachments := attachments }
    if sendOk then
      ({ status := 200, success := true, message := "Correo enviado exitosamente" }, [mail])
    else
      ({ status := 500, success := false,
         message := "Error interno del servidor al enviar el correo" }, [])

/-! ### authMiddleware (`verificarToken`) -/

/-- Outcome of `jwt.verify(token, secret)`: success with the decoded
payload, or one of the distinguished error classes of the library. -/
inductive VerifyResult where
  | ok (payload : Jwt)
  | expired
  | badSig
  | other
  deriving Repr, DecidableEq

/-- Result of the middleware: either a JSON rejection, or `next()` with
`req.usuario` set to the decoded payload (the protected handler runs). -/
inductive MwOut where
  | reject (status : Nat) (mensaje : String)
  | proceed (usuario : Jwt)
  deriving Repr, DecidableEq

/-- The middleware `verificarToken`: header present, `"Bearer <token>"`
format (exactly two space-separated parts, first part case-insensitively
`bearer`), secret configured, then `jwt.verify`.  `verify secret token`
abstracts the cryptographic check of the library. -/
def verificarToken (verify : String → String → VerifyResult)
    (secret : Option String) (authHeader : Option String) : MwOut :=
  match authHeader with
  | none => .reject 401 "Token no proporcionado"
  | some h =>
    match jsSplit ' ' h with
    | [p0, tok] =>
      if !(lowerStr p0 == "bearer") then
        .reject 401 "Formato de token inválido (Esperado: Bearer <token>)"
      else
        match secret with
        | none => .reject 500 "Error de configuración del servidor"
        | some s =>
          match verify s tok with
          | .ok payload => .proceed payload
          | .expired => .reject 401 "Token expirado"
          | .badSig => .reject 403 "Token inválido (Firma o formato incorrecto)"
          | .other => .reject 403 "Token inválido"
    | _ => .reject 401 "Formato de token inválido (Esperado: Bearer <token>)"

/-! ### aiController -/

/-- The Gemini client constructed at module load. -/
structure GenAI where
  apiKey : String
  deriving Repr, DecidableEq

/-- Module initialisation of `aiController`: reading `GEMINI_API_KEY` and
constructing the client; an absent key throws, so the module (and with it
every handler it exports) never loads. -/
def aiModuleInit (geminiApiKey : Option String) : Except String GenAI :=
  match geminiApiKey with
  | none => .error "GEMINI_API_KEY is missing. Check your .env file."
  | some k => .ok { apiKey := k }

/-- One `ai.models.generateContent` request. -/
structure GeminiCall where
  model : String
  userPrompt : String
  systemInstruction : String
  hasImage : Bool
  deriving Repr, DecidableEq

/-- Response of the AI endpoints. -/
structure AiResp where
  status : Nat
  textoMejorado : Option String := none
  error : Option String := none
  deriving Repr, DecidableEq

/-- Body of `POST /mejorar-texto-chatgpt`. -/
structure MejorarTextoReq where
  texto : Option String := none
  modo : Option String := none
  deriving Repr, DecidableEq

/-- System instruction of the `corregir_ortografia` mode. -/
def instrCorregir : String :=
  "Eres un corrector de estilo y ortografía profesional. Corrige únicamente los errores gramaticales, ortográficos y de puntuación del texto proporcionado. No añadas contenido nuevo ni cambies el significado. Devuelve solo el texto corregido."

/-- System instruction of the default mode. -/
def instrMejorar : String :=
  "Eres un asistente de redacción experto. Pulirás y mejorarás el texto proporcionado, asegurando claridad, cohesión y un tono profesional o adecuado para una nota rápida. No lo hagas excesivamente largo. Devuelve solo el texto mejorado."

/-- FUNCIÓN 1 `mejorarTextoChatGPT` (unimodal).  `apiOk` models whether the
Gemini call succeeds and `apiText` the text of the first candidate (`none`
when the response carries no candidates).  The returned list holds the
calls actually sent to the external API. -/
def mejorarTextoChatGPT (apiOk : Bool) (apiText : Option String) (_ai : GenAI)
    (req : MejorarTextoReq) : AiResp × List GeminiCall :=
  match req.texto with
  | none => ({ status := 400, error := some "El campo \"texto\" es obligatorio." }, [])
  | some texto =>
    if texto == "" then
      ({ status := 400, error := some "El campo \"texto\" es obligatorio." }, [])
    else
      let corregir := req.modo == some "corregir_ortografia"
      let systemInstruction := if corregir then instrCorregir else instrMejorar
      let userPrompt :=
        if corregir then "Corrige este texto: \"" ++ texto ++ "\""
        else "Mejora y pule este texto: \"" ++ texto ++ "\""
      let call : GeminiCall :=
        { model := "gemini-2.5-flash-preview-09-2025", userPrompt := userPrompt,
          systemInstruction := systemInstruction, hasImage := false }
      if apiOk then
        let improved := apiText.getD "No se pudo generar una respuesta."
        ({ status := 200, textoMejorado := some (jsTrim improved) }, [call])
      else
        ({ status := 500, error := some "Fallo en el servicio de IA. Intenta de nuevo." }, [call])

/-- Body of `POST /extraer-texto-imagen`. -/
structure ExtraerTextoReq where
  base64Image : Option String := none
  mimeType : Option String := none
  deriving Repr, DecidableEq

/-- System instruction of the OCR endpoint. -/
def instrTranscribir : String :=
  "Eres un asistente de transcripción y corrección. Tu tarea es: 1. Transcribir con precisión todo el texto que encuentres en la imagen. 2. Una vez transcrito, corrige inmediatamente los errores ortográficos, gramaticales y de puntuación del texto. **3. Devuelve *SOLO* el texto final**, corregido y transcrito, sin añadir preámbulos, explicaciones o comentarios adicionales."

/-- FUNCIÓN 2 `extraerTextoImagen` (multimodal OCR). -/
def extraerTextoImagen (apiOk : Bool) (apiText : Option String) (_ai : GenAI)
    (req : ExtraerTextoReq) : AiResp × List GeminiCall :=
  match req.base64Image, req.mimeType with
  | some img, some mt =>
    if img == "" || mt == "" then
      ({ status := 400, error := some "Faltan campos: base64Image y mimeType son obligatorios." }, [])
    else
      let call : GeminiCall :=
        { model := "gemini-2.5-flash-preview-09-2025",
          userPrompt := "Extrae y corrige el texto de esta imagen. Si no hay texto, indica " ++ sq ++ "No se pudo extraer texto relevante" ++ sq ++ ".",
          systemInstruction := instrTranscribir, hasImage := true }
      if apiOk then
        let extracted := apiText.getD "No se pudo extraer texto relevante."
        ({ status := 200, textoMejorado := some (jsTrim extracted) }, [call])
      else
        ({ status := 500, error := some "Fallo en el servicio de IA al procesar la imagen." }, [call])
  | _, _ =>
    ({ status := 400, error := some "Faltan campos: base64Image y mimeType son obligatorios." }, [])

/-! ### General lemmas about the execution model -/

/-- Membership is invariant under `insertSorted`. -/
theorem mem_insertSorted (le : α → α → Bool) (x a : α) (l : List α) :
    a ∈ insertSorted le x l ↔ a = x ∨ a ∈ l := by
  induction l with
  | nil => simp [insertSorted]
  | cons y ys ih =>
    simp only [insertSorted]
    split
    · simp [List.mem_cons]
    · simp only [List.mem_cons, ih]
      tauto

/-- Membership is invariant under `sortBy` (the model of `ORDER BY`). -/
theorem mem_sortBy (le : α → α → Bool) (a : α) (l : List α) :
    a ∈ sortBy le l ↔ a ∈ l := by
  induction l with
  | nil => simp [sortBy]
  | cons x xs ih => simp [sortBy, mem_insertSorted, ih]

theorem traceOK_rfl (c : Ctx) : TraceOK c c := fun _ h => .inl h

theorem traceOK_trans {a b c : Ctx} (h1 : TraceOK a b) (h2 : TraceOK b c) : TraceOK a c := by
  intro t ht
  rcases h2 t ht with hb | ha
  · exact h1 t hb
  · exact .inr ha

/-- Both outcomes of `qy` extend the trace with exactly the issued query. -/
theorem qy_trace_ok {o : Oracle} {c : Ctx} {text : String} {ps : List String} {c' : Ctx}
    (h : qy o c text ps = .ok c') :
    c'.trace = c.trace ++ [{ text := text, params := ps }] := by
  unfold qy at h
  dsimp only at h
  split at h
  · injection h with h2
    rw [← h2]
  · cases h

theorem qy_trace_error {o : Oracle} {c : Ctx} {text : String} {ps : List String} {c' : Ctx}
    (h : qy o c text ps = .error c') :
    c'.trace = c.trace ++ [{ text := text, params := ps }] := by
  unfold qy at h
  dsimp only at h
  split at h
  · cases h
  · injection h with h2
    rw [← h2]

theorem traceOK_of_append {c c' : Ctx} {text : String} {ps : List String}
    (h : c'.trace = c.trace ++ [{ text := text, params := ps }])
    (ht : text ∈ allowedSql) : TraceOK c c' := by
  intro t hm
  simp only [sqlTexts, h, List.map_append, List.mem_append, List.map_cons, List.map_nil,
    List.mem_singleton] at hm
  rcases hm with hm | hm
  · exact .inl hm
  · exact .inr (hm ▸ ht)

theorem traceOK_qy_ok {o : Oracle} {c : Ctx} {text : String} {ps : List String} {c' : Ctx}
    (h : qy o c text ps = .ok c') (ht : text ∈ allowedSql) : TraceOK c c' :=
  traceOK_of_append (qy_trace_ok h) ht

theorem traceOK_qy_error {o : Oracle} {c : Ctx} {text : String} {ps : List String} {c' : Ctx}
    (h : qy o c text ps = .error c') (ht : text ∈ allowedSql) : TraceOK c c' :=
  traceOK_of_append (qy_trace_error h) ht

/-- Updating the database (or the uuid counter) does not touch the trace. -/
theorem traceOK_db (c : Ctx) (d : DB) : TraceOK c { c with db := d } :=
  fun _ h => .inl h

/-- Variants of the `qy` lemmas for a query issued right after `fresh`
bumped the uuid counter (the trace is unchanged by the bump). -/
theorem traceOK_qy_bump_ok {o : Oracle} {c : Ctx} {k : Nat} {text : String}
    {ps : List String} {c' : Ctx}
    (h : qy o { c with ctr := k } text ps = .ok c') (ht : text ∈ allowedSql) :
    TraceOK c c' := by
  have h2 := qy_trace_ok h
  exact traceOK_of_append h2 ht

theorem traceOK_qy_bump_error {o : Oracle} {c : Ctx} {k : Nat} {text : String}
    {ps : List String} {c' : Ctx}
    (h : qy o { c with ctr := k } text ps = .error c') (ht : text ∈ allowedSql) :
    TraceOK c c' := by
  have h2 := qy_trace_error h
  exact traceOK_of_append h2 ht

theorem traceOK_insertaAplicativosDefecto (o : Oracle)
    (l : List (String × String × String)) (c : Ctx) :
    TraceOK c (exCtx (insertaAplicativosDefecto o l c)) := by
  induction l generalizing c with
  | nil => exact traceOK_rfl c
  | cons hd tl ih =>
    obtain ⟨n, u, cat⟩ := hd
    unfold insertaAplicativosDefecto
    dsimp only [fresh]
    split
    next c1 h1 => exact traceOK_qy_bump_error h1 (by decide)
    next c1 h1 =>
      exact traceOK_trans (traceOK_qy_bump_ok h1 (by decide))
        (traceOK_trans (traceOK_db c1 _) (ih _))

theorem traceOK_insertaPlantillasDefecto (o : Oracle)
    (l : List (String × String × String × String × String)) (c : Ctx) :
    TraceOK c (exCtx (insertaPlantillasDefecto o l c)) := by
  induction l generalizing c with
  | nil => exact traceOK_rfl c
  | cons hd tl ih =>
    obtain ⟨nov, npub, nint, nav, npl⟩ := hd
    unfold insertaPlantillasDefecto
    dsimp only [fresh]
    split
    next c1 h1 => exact traceOK_qy_bump_error h1 (by decide)
    next c1 h1 =>
      exact traceOK_trans (traceOK_qy_bump_ok h1 (by decide))
        (traceOK_trans (traceOK_db c1 _) (ih _))

theorem traceOK_insertaAplicativosRel (o : Oracle) (uid : String)
    (l : List String) (c : Ctx) :
    TraceOK c (exCtx (insertaAplicativosRel o uid l c)) := by
  induction l generalizing c with
  | nil => exact traceOK_rfl c
  | cons aid tl ih =>
    unfold insertaAplicativosRel
    dsimp only [fresh]
    split
    next c1 h1 => exact traceOK_qy_bump_error h1 (by decide)
    next c1 h1 =>
      exact traceOK_trans (traceOK_qy_bump_ok h1 (by decide))
        (traceOK_trans (traceOK_db c1 _) (ih _))

theorem traceOK_insertaNotasRel (o : Oracle) (uid : String)
    (l : List String) (c : Ctx) :
    TraceOK c (exCtx (insertaNotasRel o uid l c)) := by
  induction l generalizing c with
  | nil => exact traceOK_rfl c
  | cons pid tl ih =>
    unfold insertaNotasRel
    dsimp only [fresh]
    split
    next c1 h1 => exact traceOK_qy_bump_error h1 (by decide)
    next c1 h1 =>
      exact traceOK_trans (traceOK_qy_bump_ok h1 (by decide))
        (traceOK_trans (traceOK_db c1 _) (ih _))

theorem traceOK_limpiaPlantillasLoop (o : Oracle) (l : List String) (c : Ctx) :
    TraceOK c (exCtx (limpiaPlantillasLoop o l c)) := by
  induction l generalizing c with
  | nil => exact traceOK_rfl c
  | cons pid tl ih =>
    unfold limpiaPlantillasLoop
    split
    next c1 h1 => exact traceOK_qy_error h1 (by decide)
    next c1 h1 =>
      refine traceOK_trans (traceOK_qy_ok h1 (by decide)) ?_
      dsimp only
      split
      next c2 h2 =>
        exact traceOK_trans (traceOK_db c1 _) (traceOK_qy_error h2 (by decide))
      next c2 h2 =>
        exact traceOK_trans (traceOK_db c1 _)
          (traceOK_trans (traceOK_qy_ok h2 (by decide))
            (traceOK_trans (traceOK_db c2 _) (ih _)))

theorem traceOK_crearAplicativosBasePorDefecto (o : Oracle) (c : Ctx) :
    TraceOK c (exCtx (crearAplicativosBasePorDefecto o c)) := by
  unfold crearAplicativosBasePorDefecto
  split
  next c1 h1 => exact traceOK_qy_error h1 (by decide)
  next c1 h1 =>
    refine traceOK_trans (traceOK_qy_ok h1 (by decide)) ?_
    split
    · exact traceOK_rfl c1
    · exact traceOK_insertaAplicativosDefecto o _ c1

theorem traceOK_crearPlantillasBasePorDefecto (o : Oracle) (c : Ctx) :
    TraceOK c (exCtx (crearPlantillasBasePorDefecto o c)) := by
  unfold crearPlantillasBasePorDefecto
  split
  next c1 h1 => exact traceOK_qy_error h1 (by decide)
  next c1 h1 =>
    refine traceOK_trans (traceOK_qy_ok h1 (by decide)) ?_
    split
    · exact traceOK_rfl c1
    · exact traceOK_insertaPlantillasDefecto o _ c1

theorem traceOK_asignarAplicativosPorDefecto (o : Oracle) (uid : String) (c : Ctx) :
    TraceOK c (exCtx (asignarAplicativosPorDefecto o uid c)) := by
  unfold asignarAplicativosPorDefecto
  split
  next c1 h1 =>
    have h := traceOK_crearAplicativosBasePorDefecto o c
    rw [h1] at h
    exact h
  next c1 h1 =>
    have hc1 : TraceOK c c1 := by
      have h := traceOK_crearAplicativosBasePorDefecto o c
      rw [h1] at h
      exact h
    refine traceOK_trans hc1 ?_
    split
    next c2 h2 => exact traceOK_qy_error h2 (by decide)
    next c2 h2 =>
      refine traceOK_trans (traceOK_qy_ok h2 (by decide)) ?_
      dsimp only
      split
      · exact traceOK_rfl c2
      · exact traceOK_insertaAplicativosRel o uid _ c2

theorem traceOK_asignarPlantillasPorDefecto (o : Oracle) (uid : String) (c : Ctx) :
    TraceOK c (exCtx (asignarPlantillasPorDefecto o uid c)) := by
  unfold asignarPlantillasPorDefecto
  split
  next c1 h1 =>
    have h := traceOK_crearPlantillasBasePorDefecto o c
    rw [h1] at h
    exact h
  next c1 h1 =>
    have hc1 : TraceOK c c1 := by
      have h := traceOK_crearPlantillasBasePorDefecto o c
      rw [h1] at h
      exact h
    refine traceOK_trans hc1 ?_
    split
    next c2 h2 => exact traceOK_qy_error h2 (by decide)
    next c2 h2 =>
      refine traceOK_trans (traceOK_qy_ok h2 (by decide)) ?_
      dsimp only
      split
      · exact traceOK_rfl c2
      · exact traceOK_insertaNotasRel o uid _ c2

theorem traceOK_fresh {c : Ctx} {i : String} {c' : Ctx} (h : fresh c = (i, c')) :
    TraceOK c c' := by
  unfold fresh at h
  injection h with h1 h2
  rw [← h2]
  exact fun _ ht => .inl ht

theorem traceOK_crearAplicativos_error {o : Oracle} {c c' : Ctx}
    (h : crearAplicativosBasePorDefecto o c = .error c') : TraceOK c c' := by
  have hh := traceOK_crearAplicativosBasePorDefecto o c
  rw [h] at hh
  exact hh

theorem traceOK_crearAplicativos_ok {o : Oracle} {c c' : Ctx}
    (h : crearAplicativosBasePorDefecto o c = .ok c') : TraceOK c c' := by
  have hh := traceOK_crearAplicativosBasePorDefecto o c
  rw [h] at hh
  exact hh

theorem traceOK_crearPlantillas_error {o : Oracle} {c c' : Ctx}
    (h : crearPlantillasBasePorDefecto o c = .error c') : TraceOK c c' := by
  have hh := traceOK_crearPlantillasBasePorDefecto o c
  rw [h] at hh
  exact hh

theorem traceOK_crearPlantillas_ok {o : Oracle} {c c' : Ctx}
    (h : crearPlantillasBasePorDefecto o c = .ok c') : TraceOK c c' := by
  have hh := traceOK_crearPlantillasBasePorDefecto o c
  rw [h] at hh
  exact hh

theorem traceOK_asgApli_error {o : Oracle} {uid : String} {c c' : Ctx}
    (h : asignarAplicativosPorDefecto o uid c = .error c') : TraceOK c c' := by
  have hh := traceOK_asignarAplicativosPorDefecto o uid c
  rw [h] at hh
  exact hh

theorem traceOK_asgApli_ok {o : Oracle} {uid : String} {c c' : Ctx}
    (h : asignarAplicativosPorDefecto o uid c = .ok c') : TraceOK c c' := by
  have hh := traceOK_asignarAplicativosPorDefecto o uid c
  rw [h] at hh
  exact hh

theorem traceOK_asgPlant_error {o : Oracle} {uid : String} {c c' : Ctx}
    (h : asignarPlantillasPorDefecto o uid c = .error c') : TraceOK c c' := by
  have hh := traceOK_asignarPlantillasPorDefecto o uid c
  rw [h] at hh
  exact hh

theorem traceOK_asgPlant_ok {o : Oracle} {uid : String} {c c' : Ctx}
    (h : asignarPlantillasPorDefecto o uid c = .ok c') : TraceOK c c' := by
  have hh := traceOK_asignarPlantillasPorDefecto o uid c
  rw [h] at hh
  exact hh

theorem traceOK_limpiaLoop_error {o : Oracle} {l : List String} {c c' : Ctx}
    (h : limpiaPlantillasLoop o l c = .error c') : TraceOK c c' := by
  have hh := traceOK_limpiaPlantillasLoop o l c
  rw [h] at hh
  exact hh

theorem traceOK_limpiaLoop_ok {o : Oracle} {l : List String} {c c' : Ctx}
    (h : limpiaPlantillasLoop o l c = .ok c') : TraceOK c c' := by
  have hh := traceOK_limpiaPlantillasLoop o l c
  rw [h] at hh
  exact hh

theorem traceOK_registrarUsuario (o : Oracle) (req : RegistroReq) (c : Ctx) :
    TraceOK c (registrarUsuario o req c).2 := by
  unfold registrarUsuario
  split
  next c1 h1 => exact traceOK_qy_error h1 (by decide)
  next c1 h1 =>
    have hc1 := traceOK_qy_ok h1 (by decide)
    split
    · exact hc1
    · dsimp only [fresh]
      split
      next c2 h2 => exact traceOK_trans hc1 (traceOK_qy_bump_error h2 (by decide))
      next c2 h2 =>
        have hc2 := traceOK_trans hc1 (traceOK_qy_bump_ok h2 (by decide))
        dsimp only
        split
        next c3 h3 =>
          exact traceOK_trans hc2 (traceOK_trans (traceOK_db c2 _) (traceOK_asgPlant_error h3))
        next c3 h3 =>
          have hc3 := traceOK_trans hc2 (traceOK_trans (traceOK_db c2 _) (traceOK_asgPlant_ok h3))
          split
          next c4 h4 => exact traceOK_trans hc3 (traceOK_asgApli_error h4)
          next c4 h4 => exact traceOK_trans hc3 (traceOK_asgApli_ok h4)

theorem traceOK_loginUsuario (o : Oracle) (req : LoginReq) (c : Ctx) :
    TraceOK c (loginUsuario o req c).2 := by
  unfold loginUsuario
  split
  next c1 h1 => exact traceOK_qy_error h1 (by decide)
  next c1 h1 =>
    have hc1 := traceOK_qy_ok h1 (by decide)
    split
    · exact hc1
    · split <;> exact hc1

theorem traceOK_cambiarContrasena (o : Oracle) (req : CambioReq) (usuario : Jwt) (c : Ctx) :
    TraceOK c (cambiarContrasena o req usuario c).2 := by
  unfold cambiarContrasena
  split
  next c1 h1 => exact traceOK_qy_error h1 (by decide)
  next c1 h1 =>
    have hc1 := traceOK_qy_ok h1 (by decide)
    split
    · exact hc1
    · split
      · exact hc1
      · split
        next c2 h2 => exact traceOK_trans hc1 (traceOK_qy_error h2 (by decide))
        next c2 h2 =>
          exact traceOK_trans hc1 (traceOK_trans (traceOK_qy_ok h2 (by decide))
            (traceOK_db c2 _))

theorem traceOK_recuperarContrasena (o : Oracle) (req : RecuperarReq) (c : Ctx) :
    TraceOK c (recuperarContrasena o req c).2 := by
  unfold recuperarContrasena
  split
  next c1 h1 => exact traceOK_qy_error h1 (by decide)
  next c1 h1 =>
    have hc1 := traceOK_qy_ok h1 (by decide)
    split
    · exact hc1
    · split
      next c2 h2 => exact traceOK_trans hc1 (traceOK_qy_error h2 (by decide))
      next c2 h2 =>
        exact traceOK_trans hc1 (traceOK_trans (traceOK_qy_ok h2 (by decide))
          (traceOK_db c2 _))

theorem traceOK_asignarContenidoDefecto (o : Oracle) (uid : Option String) (c : Ctx) :
    TraceOK c (asignarContenidoDefecto o uid c).2 := by
  unfold asignarContenidoDefecto
  split
  · exact traceOK_rfl c
  · dsimp only
    split
    next c1 h1 => exact traceOK_qy_error h1 (by decide)
    next c1 h1 =>
      have hc1 := traceOK_qy_ok h1 (by decide)
      split
      · exact hc1
      · split
        next c2 h2 => exact traceOK_trans hc1 (traceOK_asgPlant_error h2)
        next c2 h2 =>
          refine traceOK_trans hc1 (traceOK_trans (traceOK_asgPlant_ok h2) ?_)
          split
          next c3 h3 => exact traceOK_asgApli_error h3
          next c3 h3 => exact traceOK_asgApli_ok h3

theorem traceOK_obtenerNotas (o : Oracle) (uid : String) (c : Ctx) :
    TraceOK c (obtenerNotas o uid c).2 := by
  unfold obtenerNotas
  split
  next c1 h1 => exact traceOK_qy_error h1 (by decide)
  next c1 h1 => exact traceOK_qy_ok h1 (by decide)

theorem traceOK_obtenerNotasAvances (o : Oracle) (uid : String) (c : Ctx) :
    TraceOK c (obtenerNotasAvances o uid c).2 := by
  unfold obtenerNotasAvances
  split
  next c1 h1 => exact traceOK_qy_error h1 (by decide)
  next c1 h1 => exact traceOK_qy_ok h1 (by decide)

theorem traceOK_agregarNota (o : Oracle) (req : AgregarNotaReq) (c : Ctx) :
    TraceOK c (agregarNota o req c).2 := by
  unfold agregarNota
  split
  · exact traceOK_rfl c
  · split
    · exact traceOK_rfl c
    · dsimp only
      split
      next c1 h1 => exact traceOK_qy_error h1 (by decide)
      next c1 h1 =>
        have hc1 := traceOK_qy_ok h1 (by decide)
        split
        · exact hc1
        · dsimp only [fresh]
          split
          next c2 h2 => exact traceOK_trans hc1 (traceOK_qy_bump_error h2 (by decide))
          next c2 h2 =>
            have hc2 := traceOK_trans hc1 (traceOK_qy_bump_ok h2 (by decide))
            split
            next c3 h3 =>
              exact traceOK_trans hc2 (traceOK_trans (traceOK_db c2 _) (traceOK_qy_bump_error h3 (by decide)))
            next c3 h3 =>
              exact traceOK_trans hc2 (traceOK_trans (traceOK_db c2 _)
                (traceOK_trans (traceOK_qy_bump_ok h3 (by decide)) (traceOK_db c3 _)))

theorem traceOK_asignarNota (o : Oracle) (req : AsignarNotaReq) (c : Ctx) :
    TraceOK c (asignarNota o req c).2 := by
  unfold asignarNota
  split
  · exact traceOK_rfl c
  · dsimp only
    split
    next c1 h1 => exact traceOK_qy_error h1 (by decide)
    next c1 h1 =>
      have hc1 := traceOK_qy_ok h1 (by decide)
      split
      next c2 h2 => exact traceOK_trans hc1 (traceOK_qy_error h2 (by decide))
      next c2 h2 =>
        have hc2 := traceOK_trans hc1 (traceOK_qy_ok h2 (by decide))
        split
        next c3 h3 => exact traceOK_trans hc2 (traceOK_qy_error h3 (by decide))
        next c3 h3 =>
          have hc3 := traceOK_trans hc2 (traceOK_qy_ok h3 (by decide))
          split
          · exact hc3
          · split
            · exact hc3
            · split
              · exact hc3
              · dsimp only [fresh]
                split
                next c4 h4 => exact traceOK_trans hc3 (traceOK_qy_bump_error h4 (by decide))
                next c4 h4 =>
                  exact traceOK_trans hc3 (traceOK_trans (traceOK_qy_bump_ok h4 (by decide))
                    (traceOK_db c4 _))

theorem traceOK_modificarPlantilla (o : Oracle) (id : String) (req : ModificarPlantillaReq) (c : Ctx) :
    TraceOK c (modificarPlantilla o id req c).2 := by
  unfold modificarPlantilla
  split
  next c1 h1 => exact traceOK_qy_error h1 (by decide)
  next c1 h1 =>
    have hc1 := traceOK_qy_ok h1 (by decide)
    dsimp only
    split <;> exact traceOK_trans hc1 (traceOK_db c1 _)

theorem traceOK_eliminarNota (o : Oracle) (id : Option String) (c : Ctx) :
    TraceOK c (eliminarNota o id c).2 := by
  unfold eliminarNota
  split
  · exact traceOK_rfl c
  · dsimp only
    split
    next c1 h1 => exact traceOK_qy_error h1 (by decide)
    next c1 h1 =>
      have hc1 := traceOK_qy_ok h1 (by decide)
      split
      · exact hc1
      · split
        · exact hc1
        · split
          next c2 h2 => exact traceOK_trans hc1 (traceOK_qy_error h2 (by decide))
          next c2 h2 =>
            have hc2 := traceOK_trans hc1 (traceOK_qy_ok h2 (by decide))
            split
            · exact traceOK_trans hc2 (traceOK_db c2 _)
            · split
              · split
                next c3 h3 =>
                  exact traceOK_trans hc2 (traceOK_trans (traceOK_db c2 _) (traceOK_qy_error h3 (by decide)))
                next c3 h3 =>
                  exact traceOK_trans hc2 (traceOK_trans (traceOK_db c2 _)
                    (traceOK_trans (traceOK_qy_ok h3 (by decide)) (traceOK_db c3 _)))
              · exact traceOK_trans hc2 (traceOK_db c2 _)

theorem traceOK_limpiarNotaAvances (o : Oracle) (id : String) (c : Ctx) :
    TraceOK c (limpiarNotaAvances o id c).2 := by
  unfold limpiarNotaAvances
  split
  next c1 h1 => exact traceOK_qy_error h1 (by decide)
  next c1 h1 =>
    have hc1 := traceOK_qy_ok h1 (by decide)
    dsimp only
    split <;> exact traceOK_trans hc1 (traceOK_db c1 _)

theorem traceOK_eliminarPlantillaAdicional (o : Oracle) (id : Option String) (c : Ctx) :
    TraceOK c (eliminarPlantillaAdicional o id c).2 := by
  unfold eliminarPlantillaAdicional
  split
  · exact traceOK_rfl c
  · dsimp only
    split
    next c1 h1 => exact traceOK_qy_error h1 (by decide)
    next c1 h1 =>
      have hc1 := traceOK_qy_ok h1 (by decide)
      split
      · exact hc1
      · split
        next c2 h2 => exact traceOK_trans hc1 (traceOK_qy_error h2 (by decide))
        next c2 h2 =>
          have hc2 := traceOK_trans hc1 (traceOK_qy_ok h2 (by decide))
          split
          next c3 h3 =>
            exact traceOK_trans hc2 (traceOK_trans (traceOK_db c2 _) (traceOK_qy_error h3 (by decide)))
          next c3 h3 =>
            exact traceOK_trans hc2 (traceOK_trans (traceOK_db c2 _)
              (traceOK_trans (traceOK_qy_ok h3 (by decide)) (traceOK_db c3 _)))

theorem traceOK_obtenerPlantillasDisponibles (o : Oracle) (c : Ctx) :
    TraceOK c (obtenerPlantillasDisponibles o c).2 := by
  unfold obtenerPlantillasDisponibles
  split
  next c1 h1 => exact traceOK_qy_error h1 (by decide)
  next c1 h1 => exact traceOK_qy_ok h1 (by decide)

theorem traceOK_limpiarPlantillasIncorrectas (o : Oracle) (c : Ctx) :
    TraceOK c (limpiarPlantillasIncorrectas o c).2 := by
  unfold limpiarPlantillasIncorrectas
  split
  next c1 h1 => exact traceOK_qy_error h1 (by decide)
  next c1 h1 =>
    have hc1 := traceOK_qy_ok h1 (by decide)
    dsimp only
    split
    · exact hc1
    · split
      next c2 h2 => exact traceOK_trans hc1 (traceOK_limpiaLoop_error h2)
      next c2 h2 => exact traceOK_trans hc1 (traceOK_limpiaLoop_ok h2)

theorem traceOK_obtenerAplicativos (o : Oracle) (uid : String) (c : Ctx) :
    TraceOK c (obtenerAplicativos o uid c).2 := by
  unfold obtenerAplicativos
  split
  next c1 h1 => exact traceOK_qy_error h1 (by decide)
  next c1 h1 => exact traceOK_qy_ok h1 (by decide)

theorem traceOK_agregarAplicativo (o : Oracle) (req : AgregarAplicativoReq) (c : Ctx) :
    TraceOK c (agregarAplicativo o req c).2 := by
  unfold agregarAplicativo
  split
  · exact traceOK_rfl c
  · dsimp only
    split
    next c1 h1 => exact traceOK_qy_error h1 (by decide)
    next c1 h1 =>
      have hc1 := traceOK_qy_ok h1 (by decide)
      split
      · exact hc1
      · dsimp only [fresh]
        split
        next c2 h2 => exact traceOK_trans hc1 (traceOK_qy_bump_error h2 (by decide))
        next c2 h2 =>
          have hc2 := traceOK_trans hc1 (traceOK_qy_bump_ok h2 (by decide))
          split
          next c3 h3 =>
            exact traceOK_trans hc2 (traceOK_trans (traceOK_db c2 _) (traceOK_qy_bump_error h3 (by decide)))
          next c3 h3 =>
            exact traceOK_trans hc2 (traceOK_trans (traceOK_db c2 _)
              (traceOK_trans (traceOK_qy_bump_ok h3 (by decide)) (traceOK_db c3 _)))

theorem traceOK_asignarAplicativo (o : Oracle) (req : AsignarAplicativoReq) (c : Ctx) :
    TraceOK c (asignarAplicativo o req c).2 := by
  unfold asignarAplicativo
  split
  · exact traceOK_rfl c
  · dsimp only
    split
    next c1 h1 => exact traceOK_qy_error h1 (by decide)
    next c1 h1 =>
      have hc1 := traceOK_qy_ok h1 (by decide)
      split
      · exact hc1
      · split
        next c2 h2 => exact traceOK_trans hc1 (traceOK_qy_error h2 (by decide))
        next c2 h2 =>
          have hc2 := traceOK_trans hc1 (traceOK_qy_ok h2 (by decide))
          split
          · exact hc2
          · split
            next c3 h3 => exact traceOK_trans hc2 (traceOK_qy_error h3 (by decide))
            next c3 h3 =>
              have hc3 := traceOK_trans hc2 (traceOK_qy_ok h3 (by decide))
              split
              · exact hc3
              · dsimp only [fresh]
                split
                next c4 h4 => exact traceOK_trans hc3 (traceOK_qy_bump_error h4 (by decide))
                next c4 h4 =>
                  exact traceOK_trans hc3 (traceOK_trans (traceOK_qy_bump_ok h4 (by decide))
                    (traceOK_db c4 _))

theorem traceOK_eliminarAplicativo (o : Oracle) (id : Option String) (c : Ctx) :
    TraceOK c (eliminarAplicativo o id c).2 := by
  unfold eliminarAplicativo
  split
  · exact traceOK_rfl c
  · dsimp only
    split
    next c1 h1 => exact traceOK_qy_error h1 (by decide)
    next c1 h1 =>
      have hc1 := traceOK_qy_ok h1 (by decide)
      split
      · exact hc1
      · split
        · exact hc1
        · split
          next c2 h2 => exact traceOK_trans hc1 (traceOK_qy_error h2 (by decide))
          next c2 h2 =>
            have hc2 := traceOK_trans hc1 (traceOK_qy_ok h2 (by decide))
            split
            · exact traceOK_trans hc2 (traceOK_db c2 _)
            · split
              · split
                next c3 h3 =>
                  exact traceOK_trans hc2 (traceOK_trans (traceOK_db c2 _) (traceOK_qy_error h3 (by decide)))
                next c3 h3 =>
                  exact traceOK_trans hc2 (traceOK_trans (traceOK_db c2 _)
                    (traceOK_trans (traceOK_qy_ok h3 (by decide)) (traceOK_db c3 _)))
              · exact traceOK_trans hc2 (traceOK_db c2 _)

theorem traceOK_obtenerAplicativosDisponibles (o : Oracle) (c : Ctx) :
    TraceOK c (obtenerAplicativosDisponibles o c).2 := by
  unfold obtenerAplicativosDisponibles
  split
  next c1 h1 => exact traceOK_qy_error h1 (by decide)
  next c1 h1 => exact traceOK_qy_ok h1 (by decide)

/-! ### Preservation of the `usuarios` table by the default-content helpers -/

theorem qy_db_ok {o : Oracle} {c : Ctx} {text : String} {ps : List String} {c' : Ctx}
    (h : qy o c text ps = .ok c') : c'.db = c.db := by
  unfold qy at h
  dsimp only at h
  split at h
  · injection h with h2
    rw [← h2]
  · cases h

theorem qy_db_error {o : Oracle} {c : Ctx} {text : String} {ps : List String} {c' : Ctx}
    (h : qy o c text ps = .error c') : c'.db = c.db := by
  unfold qy at h
  dsimp only at h
  split at h
  · cases h
  · injection h with h2
    rw [← h2]

theorem usuarios_insertaAplicativosDefecto (o : Oracle)
    (l : List (String × String × String)) (c : Ctx) :
    (exCtx (insertaAplicativosDefecto o l c)).db.usuarios = c.db.usuarios := by
  induction l generalizing c with
  | nil => rfl
  | cons hd tl ih =>
    obtain ⟨n, u, cat⟩ := hd
    unfold insertaAplicativosDefecto
    dsimp only [fresh]
    split
    next c1 h1 =>
      have hd1 := qy_db_error h1
      show c1.db.usuarios = c.db.usuarios
      rw [hd1]
    next c1 h1 =>
      have hd1 := qy_db_ok h1
      rw [ih]
      show c1.db.usuarios = c.db.usuarios
      rw [hd1]

theorem usuarios_insertaPlantillasDefecto (o : Oracle)
    (l : List (String × String × String × String × String)) (c : Ctx) :
    (exCtx (insertaPlantillasDefecto o l c)).db.usuarios = c.db.usuarios := by
  induction l generalizing c with
  | nil => rfl
  | cons hd tl ih =>
    obtain ⟨nov, npub, nint, nav, npl⟩ := hd
    unfold insertaPlantillasDefecto
    dsimp only [fresh]
    split
    next c1 h1 =>
      have hd1 := qy_db_error h1
      show c1.db.usuarios = c.db.usuarios
      rw [hd1]
    next c1 h1 =>
      have hd1 := qy_db_ok h1
      rw [ih]
      show c1.db.usuarios = c.db.usuarios
      rw [hd1]

theorem usuarios_insertaAplicativosRel (o : Oracle) (uid : String)
    (l : List String) (c : Ctx) :
    (exCtx (insertaAplicativosRel o uid l c)).db.usuarios = c.db.usuarios := by
  induction l generalizing c with
  | nil => rfl
  | cons aid tl ih =>
    unfold insertaAplicativosRel
    dsimp only [fresh]
    split
    next c1 h1 =>
      have hd1 := qy_db_error h1
      show c1.db.usuarios = c.db.usuarios
      rw [hd1]
    next c1 h1 =>
      have hd1 := qy_db_ok h1
      rw [ih]
      show c1.db.usuarios = c.db.usuarios
      rw [hd1]

theorem usuarios_insertaNotasRel (o : Oracle) (uid : String)
    (l : List String) (c : Ctx) :
    (exCtx (insertaNotasRel o uid l c)).db.usuarios = c.db.usuarios := by
  induction l generalizing c with
  | nil => rfl
  | cons pid tl ih =>
    unfold insertaNotasRel
    dsimp only [fresh]
    split
    next c1 h1 =>
      have hd1 := qy_db_error h1
      show c1.db.usuarios = c.db.usuarios
      rw [hd1]
    next c1 h1 =>
      have hd1 := qy_db_ok h1
      rw [ih]
      show c1.db.usuarios = c.db.usuarios
      rw [hd1]

theorem usuarios_crearAplicativosBasePorDefecto (o : Oracle) (c : Ctx) :
    (exCtx (crearAplicativosBasePorDefecto o c)).db.usuarios = c.db.usuarios := by
  unfold crearAplicativosBasePorDefecto
  split
  next c1 h1 =>
    have hd1 := qy_db_error h1
    show c1.db.usuarios = c.db.usuarios
    rw [hd1]
  next c1 h1 =>
    have hd1 := qy_db_ok h1
    split
    · show c1.db.usuarios = c.db.usuarios
      rw [hd1]
    · rw [usuarios_insertaAplicativosDefecto, hd1]

theorem usuarios_crearPlantillasBasePorDefecto (o : Oracle) (c : Ctx) :
    (exCtx (crearPlantillasBasePorDefecto o c)).db.usuarios = c.db.usuarios := by
  unfold crearPlantillasBasePorDefecto
  split
  next c1 h1 =>
    have hd1 := qy_db_error h1
    show c1.db.usuarios = c.db.usuarios
    rw [hd1]
  next c1 h1 =>
    have hd1 := qy_db_ok h1
    split
    · show c1.db.usuarios = c.db.usuarios
      rw [hd1]
    · rw [usuarios_insertaPlantillasDefecto, hd1]

theorem usuarios_asignarAplicativosPorDefecto (o : Oracle) (uid : String) (c : Ctx) :
    (exCtx (asignarAplicativosPorDefecto o uid c)).db.usuarios = c.db.usuarios := by
  unfold asignarAplicativosPorDefecto
  split
  next c1 h1 =>
    have h := usuarios_crearAplicativosBasePorDefecto o c
    rw [h1] at h
    exact h
  next c1 h1 =>
    have hu1 : c1.db.usuarios = c.db.usuarios := by
      have h := usuarios_crearAplicativosBasePorDefecto o c
      rw [h1] at h
      exact h
    split
    next c2 h2 =>
      have hd2 := qy_db_error h2
      show c2.db.usuarios = c.db.usuarios
      rw [hd2, hu1]
    next c2 h2 =>
      have hd2 := qy_db_ok h2
      have hu2 : c2.db.usuarios = c.db.usuarios := by rw [hd2, hu1]
      dsimp only
      split
      · exact hu2
      · rw [usuarios_insertaAplicativosRel]
        exact hu2

theorem usuarios_asignarPlantillasPorDefecto (o : Oracle) (uid : String) (c : Ctx) :
    (exCtx (asignarPlantillasPorDefecto o uid c)).db.usuarios = c.db.usuarios := by
  unfold asignarPlantillasPorDefecto
  split
  next c1 h1 =>
    have h := usuarios_crearPlantillasBasePorDefecto o c
    rw [h1] at h
    exact h
  next c1 h1 =>
    have hu1 : c1.db.usuarios = c.db.usuarios := by
      have h := usuarios_crearPlantillasBasePorDefecto o c
      rw [h1] at h
      exact h
    split
    next c2 h2 =>
      have hd2 := qy_db_error h2
      show c2.db.usuarios = c.db.usuarios
      rw [hd2, hu1]
    next c2 h2 =>
      have hd2 := qy_db_ok h2
      have hu2 : c2.db.usuarios = c.db.usuarios := by rw [hd2, hu1]
      dsimp only
      split
      · exact hu2
      · rw [usuarios_insertaNotasRel]
        exact hu2

theorem sqlOK_of_traceOK {db : DB} {c' : Ctx} (h : TraceOK (initCtx db) c') : SqlOK c' := by
  intro t ht
  rcases h t ht with h0 | h1
  · exact absurd h0 (List.not_mem_nil t)
  · exact h1

/-- Under the all-success oracle every query succeeds and only the step
counter and the trace move. -/
theorem qy_allOk (c : Ctx) (text : String) (ps : List String) :
    qy allOk c text ps
      = .ok { c with qn := c.qn + 1, trace := c.trace ++ [{ text := text, params := ps }] } := rfl

/-! ### Claim theorems -/

/-- C6: for every route handler, every oracle, database state and request,
every SQL text sent to the database lies in the fixed constant list
`allowedSql`, which mentions no request data: request-derived values reach
the database only through the bound-parameter lists of the trace entries,
never by concatenation into the query text.  Instantiating a conjunct at
two different requests gives the two-run reading: both runs issue SQL
strings from the same fixed list, independent of user input. -/
theorem C6_sql_text_noninterference :
    (∀ (o : Oracle) (db : DB) (req : RegistroReq), SqlOK (registrarUsuario o req (initCtx db)).2)
    ∧ (∀ (o : Oracle) (db : DB) (req : LoginReq), SqlOK (loginUsuario o req (initCtx db)).2)
    ∧ (∀ (o : Oracle) (db : DB) (req : CambioReq) (usuario : Jwt),
        SqlOK (cambiarContrasena o req usuario (initCtx db)).2)
    ∧ (∀ (o : Oracle) (db : DB) (req : RecuperarReq), SqlOK (recuperarContrasena o req (initCtx db)).2)
    ∧ (∀ (o : Oracle) (db : DB) (uid : Option String), SqlOK (asignarContenidoDefecto o uid (initCtx db)).2)
    ∧ (∀ (o : Oracle) (db : DB) (uid : String), SqlOK (obtenerNotas o uid (initCtx db)).2)
    ∧ (∀ (o : Oracle) (db : DB) (uid : String), SqlOK (obtenerNotasAvances o uid (initCtx db)).2)
    ∧ (∀ (o : Oracle) (db : DB) (req : AgregarNotaReq), SqlOK (agregarNota o req (initCtx db)).2)
    ∧ (∀ (o : Oracle) (db : DB) (req : AsignarNotaReq), SqlOK (asignarNota o req (initCtx db)).2)
    ∧ (∀ (o : Oracle) (db : DB) (id : String) (req : ModificarPlantillaReq),
        SqlOK (modificarPlantilla o id req (initCtx db)).2)
    ∧ (∀ (o : Oracle) (db : DB) (id : Option String), SqlOK (eliminarNota o id (initCtx db)).2)
    ∧ (∀ (o : Oracle) (db : DB) (id : String), SqlOK (limpiarNotaAvances o id (initCtx db)).2)
    ∧ (∀ (o : Oracle) (db : DB) (id : Option String), SqlOK (eliminarPlantillaAdicional o id (initCtx db)).2)
    ∧ (∀ (o : Oracle) (db : DB), SqlOK (obtenerPlantillasDisponibles o (initCtx db)).2)
    ∧ (∀ (o : Oracle) (db : DB), SqlOK (limpiarPlantillasIncorrectas o (initCtx db)).2)
    ∧ (∀ (o : Oracle) (db : DB) (uid : String), SqlOK (obtenerAplicativos o uid (initCtx db)).2)
    ∧ (∀ (o : Oracle) (db : DB) (req : AgregarAplicativoReq), SqlOK (agregarAplicativo o req (initCtx db)).2)
    ∧ (∀ (o : Oracle) (db : DB) (req : AsignarAplicativoReq), SqlOK (asignarAplicativo o req (initCtx db)).2)
    ∧ (∀ (o : Oracle) (db : DB) (id : Option String), SqlOK (eliminarAplicativo o id (initCtx db)).2)
    ∧ (∀ (o : Oracle) (db : DB), SqlOK (obtenerAplicativosDisponibles o (initCtx db)).2) :=
  ⟨fun o db req => sqlOK_of_traceOK (traceOK_registrarUsuario o req (initCtx db)),
   fun o db req => sqlOK_of_traceOK (traceOK_loginUsuario o req (initCtx db)),
   fun o db req usuario => sqlOK_of_traceOK (traceOK_cambiarContrasena o req usuario (initCtx db)),
   fun o db req => sqlOK_of_traceOK (traceOK_recuperarContrasena o req (initCtx db)),
   fun o db uid => sqlOK_of_traceOK (traceOK_asignarContenidoDefecto o uid (initCtx db)),
   fun o db uid => sqlOK_of_traceOK (traceOK_obtenerNotas o uid (initCtx db)),
   fun o db uid => sqlOK_of_traceOK (traceOK_obtenerNotasAvances o uid (initCtx db)),
   fun o db req => sqlOK_of_traceOK (traceOK_agregarNota o req (initCtx db)),
   fun o db req => sqlOK_of_traceOK (traceOK_asignarNota o req (initCtx db)),
   fun o db id req => sqlOK_of_traceOK (traceOK_modificarPlantilla o id req (initCtx db)),
   fun o db id => sqlOK_of_traceOK (traceOK_eliminarNota o id (initCtx db)),
   fun o db id => sqlOK_of_traceOK (traceOK_limpiarNotaAvances o id (initCtx db)),
   fun o db id => sqlOK_of_traceOK (traceOK_eliminarPlantillaAdicional o id (initCtx db)),
   fun o db => sqlOK_of_traceOK (traceOK_obtenerPlantillasDisponibles o (initCtx db)),
   fun o db => sqlOK_of_traceOK (traceOK_limpiarPlantillasIncorrectas o (initCtx db)),
   fun o db uid => sqlOK_of_traceOK (traceOK_obtenerAplicativos o uid (initCtx db)),
   fun o db req => sqlOK_of_traceOK (traceOK_agregarAplicativo o req (initCtx db)),
   fun o db req => sqlOK_of_traceOK (traceOK_asignarAplicativo o req (initCtx db)),
   fun o db id => sqlOK_of_traceOK (traceOK_eliminarAplicativo o id (initCtx db)),
   fun o db => sqlOK_of_traceOK (traceOK_obtenerAplicativosDisponibles o (initCtx db))⟩

/-- C3: the dedup deletions have no transactional atomicity: there is a
failure schedule (the base-table DELETE fails after the relation-table
DELETE succeeded) under which `eliminarNota` and `eliminarAplicativo`
report a 500 error while the relation row is already gone — the state is
not unchanged on error (the base table, whose DELETE failed, is). -/
theorem C3_deletion_not_atomic :
    (∃ (o : Oracle) (db : DB) (id : Option String),
      (eliminarNota o id (initCtx db)).1.status = 500
      ∧ (eliminarNota o id (initCtx db)).2.db.notas_despacho_rel ≠ db.notas_despacho_rel
      ∧ (eliminarNota o id (initCtx db)).2.db.plantillas_base = db.plantillas_base)
    ∧ (∃ (o : Oracle) (db : DB) (id : Option String),
      (eliminarAplicativo o id (initCtx db)).1.status = 500
      ∧ (eliminarAplicativo o id (initCtx db)).2.db.aplicativos_rel ≠ db.aplicativos_rel
      ∧ (eliminarAplicativo o id (initCtx db)).2.db.aplicativos_base = db.aplicativos_base) := by
  constructor
  · refine ⟨fun n => decide (n < 2),
      { plantillas_base := [⟨"p1", "X", some "a", some "b", some "c", some "d"⟩],
        notas_despacho_rel := [⟨"r1", "u1", "p1", 0⟩] },
      some "r1", ?_, ?_, ?_⟩ <;> decide
  · refine ⟨fun n => decide (n < 2),
      { aplicativos_base := [⟨"b1", "Gmail", "https://mail.google.com", "Correo"⟩],
        aplicativos_rel := [⟨"ar1", "u1", "b1", 0⟩] },
      some "ar1", ?_, ?_, ?_⟩ <;> decide

/-- C10: loading the aiController module fails (throws) exactly when
`GEMINI_API_KEY` is unset, so the exported handlers only run with a
constructed client; and under that precondition a request that misses the
required body fields (`texto`, or `base64Image`/`mimeType`) is answered
with 400 and the external API is not contacted (the call list is empty),
whatever the API would have answered. -/
theorem C10_ai_key_and_field_guards :
    aiModuleInit none = .error "GEMINI_API_KEY is missing. Check your .env file."
    ∧ (∀ k : String, aiModuleInit (some k) = .ok { apiKey := k })
    ∧ (∀ (apiOk : Bool) (apiText : Option String) (ai : GenAI) (modo : Option String),
        mejorarTextoChatGPT apiOk apiText ai { texto := none, modo := modo }
          = ({ status := 400, error := some "El campo \"texto\" es obligatorio." }, []))
    ∧ (∀ (apiOk : Bool) (apiText : Option String) (ai : GenAI) (mt : Option String),
        extraerTextoImagen apiOk apiText ai { base64Image := none, mimeType := mt }
          = ({ status := 400, error := some "Faltan campos: base64Image y mimeType son obligatorios." }, []))
    ∧ (∀ (apiOk : Bool) (apiText : Option String) (ai : GenAI) (img : String),
        extraerTextoImagen apiOk apiText ai { base64Image := some img, mimeType := none }
          = ({ status := 400, error := some "Faltan campos: base64Image y mimeType son obligatorios." }, [])) := by
  refine ⟨rfl, fun k => rfl, fun apiOk apiText ai modo => rfl, ?_, ?_⟩
  · intro apiOk apiText ai mt
    cases mt <;> rfl
  · intro apiOk apiText ai img
    rfl

/-- C5: the middleware lets the protected handler run (result `proceed p`,
with `req.usuario` the decoded payload) exactly when the Authorization
header is present, splits on spaces into exactly two parts whose first
lowercases to `bearer`, the secret is configured, and `jwt.verify`
succeeds on the token; a missing header, a malformed header and an
expired token are answered 401, an invalid signature 403, and in every
rejection case the handler does not run. -/
theorem C5_verificarToken_gate :
    ∀ (verify : String → String → VerifyResult) (secret authHeader : Option String),
      (∀ p : Jwt,
        verificarToken verify secret authHeader = .proceed p ↔
          ∃ h w tok s, authHeader = some h ∧ jsSplit ' ' h = [w, tok]
            ∧ lowerStr w = "bearer" ∧ secret = some s ∧ verify s tok = .ok p)
      ∧ (authHeader = none →
          verificarToken verify secret authHeader = .reject 401 "Token no proporcionado")
      ∧ (∀ h, authHeader = some h →
          (¬ ∃ w tok, jsSplit ' ' h = [w, tok] ∧ lowerStr w = "bearer") →
          verificarToken verify secret authHeader
            = .reject 401 "Formato de token inválido (Esperado: Bearer <token>)")
      ∧ (∀ h w tok s, authHeader = some h → jsSplit ' ' h = [w, tok] →
          lowerStr w = "bearer" → secret = some s →
          (verify s tok = .expired →
            verificarToken verify secret authHeader = .reject 401 "Token expirado")
          ∧ (verify s tok = .badSig →
            verificarToken verify secret authHeader
              = .reject 403 "Token inválido (Firma o formato incorrecto)")) := by
  intro verify secret authHeader
  refine ⟨?_, ?_, ?_, ?_⟩
  · intro p
    constructor
    · cases authHeader with
      | none =>
        intro hp
        unfold verificarToken at hp
        cases hp
      | some h =>
        unfold verificarToken
        dsimp only
        cases hsp : jsSplit ' ' h with
        | nil =>
          intro hp
          cases hp
        | cons w rest =>
          cases rest with
          | nil =>
            intro hp
            cases hp
          | cons tok rest2 =>
            cases rest2 with
            | nil =>
              dsimp only
              by_cases hb : lowerStr w = "bearer"
              · rw [if_neg (by simp [hb])]
                cases secret with
                | none =>
                  intro hp
                  cases hp
                | some s =>
                  dsimp only
                  cases hv : verify s tok with
                  | ok q =>
                    intro hp
                    injection hp with hq
                    exact ⟨h, w, tok, s, rfl, hsp, hb, rfl, by rw [hv, hq]⟩
                  | expired =>
                    intro hp
                    cases hp
                  | badSig =>
                    intro hp
                    cases hp
                  | other =>
                    intro hp
                    cases hp
              · rw [if_pos (by simp [hb])]
                intro hp
                cases hp
            | cons z zs =>
              intro hp
              cases hp
    · rintro ⟨h, w, tok, s, hh, hsp, hb, hs, hv⟩
      subst hh
      subst hs
      unfold verificarToken
      dsimp only
      rw [hsp]
      dsimp only
      rw [if_neg (by simp [hb])]
      rw [hv]
  · intro hh
    subst hh
    rfl
  · intro h hh hbad
    subst hh
    unfold verificarToken
    dsimp only
    cases hsp : jsSplit ' ' h with
    | nil => rfl
    | cons w rest =>
      cases rest with
      | nil => rfl
      | cons tok rest2 =>
        cases rest2 with
        | nil =>
          have hbne : lowerStr w ≠ "bearer" := fun hb => hbad ⟨w, tok, hsp, hb⟩
          dsimp only
          rw [if_pos (by simp [hbne])]
        | cons z zs => rfl
  · intro h w tok s hh hsp hb hs
    subst hh
    subst hs
    constructor <;>
      · intro hv
        unfold verificarToken
        dsimp only
        rw [hsp]
        dsimp only
        rw [if_neg (by simp [hb])]
        rw [hv]

/-- C5 witness: concrete runs through the middleware — an expired token is
rejected 401 and a valid one proceeds with the decoded payload. -/
theorem C5_witness :
    verificarToken (fun _ _ => VerifyResult.expired) (some "s") (some "bEaReR tok")
      = .reject 401 "Token expirado"
    ∧ verificarToken (fun _ t => VerifyResult.ok ⟨t, "e@x"⟩) (some "s") (some "Bearer tok")
      = .proceed ⟨"tok", "e@x"⟩ := by
  constructor
  · exact ((C5_verificarToken_gate (fun _ _ => VerifyResult.expired) (some "s")
      (some "bEaReR tok")).2.2.2 "bEaReR tok" "bEaReR" "tok" "s" rfl (by decide) (by decide) rfl).1 rfl
  · exact ((C5_verificarToken_gate (fun _ t => VerifyResult.ok ⟨t, "e@x"⟩) (some "s")
      (some "Bearer tok")).1 ⟨"tok", "e@x"⟩).2
      ⟨"Bearer tok", "Bearer", "tok", "s", rfl, by decide, by decide, rfl, rfl⟩

/-- C7 counterexample: with `para` present but equal to the empty string
(and `asunto`, `mensaje` present and non-empty) the handler answers 400
and sends nothing, while the claim as stated — 400 only for absent
fields, otherwise exactly one message is sent — predicts one sent
message. -/
theorem C7_counterexample :
    (enviarCorreo true { para := some "", asunto := some "Asunto", mensaje := some "Hola" }).1.status = 400
    ∧ (enviarCorreo true { para := some "", asunto := some "Asunto", mensaje := some "Hola" }).2 = [] := by
  constructor <;> decide

/-- C7 (amended): `enviarCorreo` answers 400 and sends no mail when any of
`para`, `asunto`, `mensaje` is absent or empty (JavaScript falsy);
otherwise (with a successful transport) it sends exactly one message,
whose body is treated as HTML iff the message contains both `'<'` and
`'>'` — in that case the plain-text alternative strips the tags, and
otherwise the HTML part replaces each newline by `<br>`. -/
theorem C7_enviarCorreo_amended :
    ∀ (req : MailReq) (sendOk : Bool),
      (¬(truthy req.para ∧ truthy req.asunto ∧ truthy req.mensaje) →
        enviarCorreo sendOk req
          = ({ status := 400, success := false,
               message := "Los campos para, asunto y mensaje son requeridos" }, []))
      ∧ (truthy req.para → truthy req.asunto → truthy req.mensaje → sendOk = true →
        ∃ m : MailOptions,
          (enviarCorreo sendOk req).2 = [m]
          ∧ (enviarCorreo sendOk req).1
              = { status := 200, success := true, message := "Correo enviado exitosamente" }
          ∧ (((getStr req.mensaje).data.contains '<' ∧ (getStr req.mensaje).data.contains '>') →
              m.html = getStr req.mensaje ∧ m.text = stripTags (getStr req.mensaje))
          ∧ (¬((getStr req.mensaje).data.contains '<' ∧ (getStr req.mensaje).data.contains '>') →
              m.text = getStr req.mensaje
              ∧ m.html = ⟨replaceNewlines (getStr req.mensaje).data⟩)) := by
  intro req sendOk
  constructor
  · intro hmiss
    have hcond : (!truthy req.para || !truthy req.asunto || !truthy req.mensaje) = true := by
      cases hpa : truthy req.para with
      | false => simp
      | true =>
        cases hsu : truthy req.asunto with
        | false => simp
        | true =>
          cases hme : truthy req.mensaje with
          | false => simp
          | true => exact absurd ⟨hpa, hsu, hme⟩ hmiss
    unfold enviarCorreo
    rw [if_pos hcond]
  · intro hpa hsu hme hsend
    subst hsend
    unfold enviarCorreo
    rw [if_neg (by simp [hpa, hsu, hme])]
    dsimp only
    rw [if_pos rfl]
    cases hlt : (getStr req.mensaje).data.contains '<' with
    | false =>
      refine ⟨_, rfl, rfl, ?_, ?_⟩
      · rintro ⟨h1, h2⟩
        cases h1
      · intro _
        constructor <;> simp
    | true =>
      cases hgt : (getStr req.mensaje).data.contains '>' with
      | false =>
        refine ⟨_, rfl, rfl, ?_, ?_⟩
        · rintro ⟨h1, h2⟩
          cases h2
        · intro _
          constructor <;> simp
      | true =>
        refine ⟨_, rfl, rfl, ?_, ?_⟩
        · intro _
          constructor <;> simp
        · intro hn
          exact absurd ⟨rfl, rfl⟩ hn

/-- C7 witness: a concrete plain-text mail with every field present goes
out exactly once, with the newline turned into a line break tag. -/
theorem C7_witness :
    (enviarCorreo true { para := some "a@b", asunto := some "s", mensaje := some "hola\nmundo" }).2.length = 1 := by
  have h := (C7_enviarCorreo_amended
    { para := some "a@b", asunto := some "s", mensaje := some "hola\nmundo" } true).2
    (by decide) (by decide) (by decide) rfl
  obtain ⟨m, hm, -, -, -⟩ := h
  rw [hm]
  rfl

/-- C1 counterexample: a template whose only non-blank content column is
`nota_avances` (a "pure avances note") is shared by two users; deleting
one user's relation via `eliminarNota` removes the shared
`plantillas_base` row even though the other relation row still references
it — the claim's "whenever at least one other relation row still
references the base row, the base row is left unchanged" fails. -/
theorem C1_counterexample :
    let db : DB :=
      { plantillas_base := [⟨"p1", "Seguimiento", some "", some "", some "texto", some ""⟩],
        notas_despacho_rel := [⟨"r1", "u1", "p1", 0⟩, ⟨"r2", "u2", "p1", 0⟩] }
    (db.notas_despacho_rel.filter (fun r => r.plantilla_id == "p1")).length = 2
    ∧ (eliminarNota allOk (some "r1") (initCtx db)).1.status = 200
    ∧ (eliminarNota allOk (some "r1") (initCtx db)).2.db.notas_despacho_rel = [⟨"r2", "u2", "p1", 0⟩]
    ∧ (eliminarNota allOk (some "r1") (initCtx db)).2.db.plantillas_base = [] := by
  dsimp only
  refine ⟨?_, ?_, ?_, ?_⟩ <;> decide

/-- C1 (amended): under the success oracle, when the relation row and its
base row exist, both deletion handlers always delete exactly the relation
row; `eliminarAplicativo` deletes the shared `aplicativos_base` row
exactly when the deleted relation was the last reference, while
`eliminarNota` deletes the shared `plantillas_base` row exactly when the
deleted relation was the last reference OR the template is a pure avances
note (`esNotaAvancesPura`) — in the latter case even though other
relation rows still reference it. -/
theorem C1_dedup_deletion_amended :
    ∀ (db : DB) (rid : String), rid ≠ "" →
      (∀ r b,
        db.aplicativos_rel.find? (fun x => x.id == rid) = some r →
        db.aplicativos_base.find? (fun x => x.id == r.aplicativo_base_id) = some b →
        (eliminarAplicativo allOk (some rid) (initCtx db)).2.db.aplicativos_rel
            = db.aplicativos_rel.filter (fun x => !(x.id == rid))
        ∧ (eliminarAplicativo allOk (some rid) (initCtx db)).2.db.aplicativos_base
            = (if (db.aplicativos_rel.filter
                    (fun x => x.aplicativo_base_id == r.aplicativo_base_id)).length = 1
               then db.aplicativos_base.filter (fun x => !(x.id == r.aplicativo_base_id))
               else db.aplicativos_base))
      ∧ (∀ r p,
        db.notas_despacho_rel.find? (fun x => x.id == rid) = some r →
        db.plantillas_base.find? (fun x => x.id == r.plantilla_id) = some p →
        (eliminarNota allOk (some rid) (initCtx db)).2.db.notas_despacho_rel
            = db.notas_despacho_rel.filter (fun x => !(x.id == rid))
        ∧ (eliminarNota allOk (some rid) (initCtx db)).2.db.plantillas_base
            = (if ((db.notas_despacho_rel.filter
                      (fun x => x.plantilla_id == r.plantilla_id)).length ≤ 1
                    ∨ esNotaAvancesPura p)
               then db.plantillas_base.filter (fun x => !(x.id == r.plantilla_id))
               else db.plantillas_base)) := by
  intro db rid hrid
  constructor
  · intro r b hr hb
    have hmem := List.mem_of_find?_eq_some hr
    have hrid2 := List.find?_some hr
    have hne : (db.aplicativos_rel.filter (fun r2 => r2.id == rid)).length ≠ 0 := by
      intro h0
      rw [List.length_eq_zero] at h0
      exact absurd (List.mem_filter.mpr ⟨hmem, hrid2⟩) (by rw [h0]; exact List.not_mem_nil r)
    unfold eliminarAplicativo
    rw [if_neg (by simp [truthy, hrid])]
    dsimp only [getStr, Option.getD]
    rw [qy_allOk]
    dsimp only [initCtx]
    rw [hr]
    dsimp only
    rw [hb]
    dsimp only
    rw [qy_allOk]
    dsimp only
    rw [if_neg hne]
    by_cases htot : (db.aplicativos_rel.filter
        (fun x => x.aplicativo_base_id == r.aplicativo_base_id)).length = 1
    · rw [if_pos (by simp [htot]), qy_allOk]
      dsimp only
      rw [if_pos htot]
      exact ⟨rfl, rfl⟩
    · rw [if_neg (by simp [htot])]
      dsimp only
      rw [if_neg htot]
      exact ⟨rfl, rfl⟩
  · intro r p hr hp
    have hmem := List.mem_of_find?_eq_some hr
    have hrid2 := List.find?_some hr
    have hne : (db.notas_despacho_rel.filter (fun r2 => r2.id == rid)).length ≠ 0 := by
      intro h0
      rw [List.length_eq_zero] at h0
      exact absurd (List.mem_filter.mpr ⟨hmem, hrid2⟩) (by rw [h0]; exact List.not_mem_nil r)
    unfold eliminarNota
    rw [if_neg (by simp [truthy, hrid])]
    dsimp only [getStr, Option.getD]
    rw [qy_allOk]
    dsimp only [initCtx]
    rw [hr]
    dsimp only
    rw [hp]
    dsimp only
    rw [qy_allOk]
    dsimp only
    rw [if_neg hne]
    by_cases hcond : ((db.notas_despacho_rel.filter
        (fun x => x.plantilla_id == r.plantilla_id)).length ≤ 1 ∨ esNotaAvancesPura p = true)
    · rw [if_pos (by simpa [Bool.or_eq_true, decide_eq_true_eq] using hcond), qy_allOk]
      dsimp only
      rw [if_pos hcond]
      exact ⟨rfl, rfl⟩
    · rw [if_neg (by simpa [Bool.or_eq_true, decide_eq_true_eq] using hcond)]
      dsimp only
      rw [if_neg hcond]
      exact ⟨rfl, rfl⟩

/-- C1 witness: on a catalog aplicativo shared by two users the base row
survives the deletion of one relation, and on a template referenced only
once the base row is removed together with the relation. -/
theorem C1_witness :
    (eliminarAplicativo allOk (some "ar1")
      (initCtx { aplicativos_base := [⟨"b1", "Gmail", "https://mail.google.com", "Correo"⟩],
                 aplicativos_rel := [⟨"ar1", "u1", "b1", 0⟩, ⟨"ar2", "u2", "b1", 1⟩] })).2.db.aplicativos_base
      = [⟨"b1", "Gmail", "https://mail.google.com", "Correo"⟩]
    ∧ (eliminarNota allOk (some "r1")
      (initCtx { plantillas_base := [⟨"p1", "Nota General", some "a", some "b", some "c", some "d"⟩],
                 notas_despacho_rel := [⟨"r1", "u1", "p1", 0⟩] })).2.db.plantillas_base = [] := by
  constructor
  · have h := ((C1_dedup_deletion_amended
      { aplicativos_base := [⟨"b1", "Gmail", "https://mail.google.com", "Correo"⟩],
        aplicativos_rel := [⟨"ar1", "u1", "b1", 0⟩, ⟨"ar2", "u2", "b1", 1⟩] }
      "ar1" (by decide)).1 ⟨"ar1", "u1", "b1", 0⟩
      ⟨"b1", "Gmail", "https://mail.google.com", "Correo"⟩ (by decide) (by decide)).2
    rw [h]
    decide
  · have h := ((C1_dedup_deletion_amended
      { plantillas_base := [⟨"p1", "Nota General", some "a", some "b", some "c", some "d"⟩],
        notas_despacho_rel := [⟨"r1", "u1", "p1", 0⟩] }
      "r1" (by decide)).2 ⟨"r1", "u1", "p1", 0⟩
      ⟨"p1", "Nota General", some "a", some "b", some "c", some "d"⟩ (by decide) (by decide)).2
    rw [h]
    decide

/-- C9: `agregarNota` (with both required fields present) answers 400
exactly for the three literal novedad values `AVANCE`, `avance`,
`Avance`; a different casing such as `aVance` is accepted (201) and the
template is stored with that novedad; and `obtenerPlantillasDisponibles`
returns exactly the templates whose `UPPER(novedad)` is not `AVANCE`,
excluding every casing. -/
theorem C9_avance_name_handling :
    (∀ (o : Oracle) (req : AgregarNotaReq) (c : Ctx),
        truthy req.usuario_id → truthy req.novedad →
        ((agregarNota o req c).1.status = 400 ↔ getStr req.novedad ∈ nombresIncorrectos))
    ∧ ((agregarNota allOk
          { usuario_id := some "u1", novedad := some "aVance" }
          (initCtx { usuarios := [⟨"u1", "n", "e@x", "pw"⟩] })).1.status = 201
        ∧ ∃ q ∈ (agregarNota allOk
            { usuario_id := some "u1", novedad := some "aVance" }
            (initCtx { usuarios := [⟨"u1", "n", "e@x", "pw"⟩] })).2.db.plantillas_base,
            q.novedad = "aVance")
    ∧ (∀ (db : DB) (q : PlantillaBase),
        ∃ rows, (obtenerPlantillasDisponibles allOk (initCtx db)).1 = Sum.inr rows
          ∧ (q ∈ rows ↔ q ∈ db.plantillas_base ∧ upperStr q.novedad ≠ "AVANCE")) := by
  refine ⟨?_, by decide, ?_⟩
  · intro o req c h1 h2
    unfold agregarNota
    rw [if_neg (by simp [h1, h2])]
    by_cases hmem : getStr req.novedad ∈ nombresIncorrectos
    · rw [if_pos (by simpa using hmem)]
      exact iff_of_true rfl hmem
    · rw [if_neg (by simpa using hmem)]
      refine iff_of_false ?_ hmem
      dsimp only
      split
      next c1 h1x => simp
      next c1 h1x =>
        split
        · simp
        · dsimp only [fresh]
          split
          next c2 h2x => simp
          next c2 h2x =>
            split
            next c3 h3x => simp
            next c3 h3x => simp
  · intro db q
    unfold obtenerPlantillasDisponibles
    rw [qy_allOk]
    dsimp only [initCtx]
    refine ⟨_, rfl, ?_⟩
    rw [mem_sortBy, List.mem_filter]
    simp

/-- C9 witness: the literal `Avance` is rejected with 400, obtained from
the general characterization at a concrete request. -/
theorem C9_witness :
    (agregarNota allOk { usuario_id := some "u1", novedad := some "Avance" }
      (initCtx {})).1.status = 400 := by
  have h := C9_avance_name_handling.1 allOk
    { usuario_id := some "u1", novedad := some "Avance" } (initCtx {}) (by decide) (by decide)
  exact h.mpr (by decide)

/-- C4: with the query succeeding and emails unique in `usuarios` (the
invariant `registrarUsuario` maintains), `loginUsuario` returns the
success response carrying the signed token `{id, email}` if and only if a
`usuarios` row with the submitted email exists whose stored `contraseña`
is string-equal (plaintext, no hashing) to the submitted one; in every
other case it returns exactly 401 `Credenciales incorrectas` with no
token. -/
theorem C4_login_plaintext_check :
    ∀ (db : DB) (req : LoginReq),
      (db.usuarios.map (fun u => u.email)).Nodup →
      ((∃ u ∈ db.usuarios, u.email = req.email ∧ u.contrasena = req.contrasena)
        ↔ ((loginUsuario allOk req (initCtx db)).1.status = 200
            ∧ (loginUsuario allOk req (initCtx db)).1.mensaje = "Inicio de sesión exitoso"
            ∧ ∃ u ∈ db.usuarios, u.email = req.email ∧ u.contrasena = req.contrasena
                ∧ (loginUsuario allOk req (initCtx db)).1.token = some ⟨u.id, u.email⟩))
      ∧ ((¬∃ u ∈ db.usuarios, u.email = req.email ∧ u.contrasena = req.contrasena) →
          (loginUsuario allOk req (initCtx db)).1
            = { status := 401, mensaje := "Credenciales incorrectas" }) := by
  intro db req hnd
  unfold loginUsuario
  rw [qy_allOk]
  dsimp only [initCtx]
  cases hfil : db.usuarios.filter (fun u => u.email == req.email) with
  | nil =>
    have hno : ¬∃ u ∈ db.usuarios, u.email = req.email ∧ u.contrasena = req.contrasena := by
      rintro ⟨u, hu, he, hp⟩
      have hmem : u ∈ List.filter (fun u => u.email == req.email) db.usuarios :=
        List.mem_filter.mpr ⟨hu, by simp [he]⟩
      rw [hfil] at hmem
      exact absurd hmem (List.not_mem_nil u)
    constructor
    · refine iff_of_false hno ?_
      rintro ⟨h2, -⟩
      simp at h2
    · intro _
      rfl
  | cons u0 tl =>
    have hu0f : u0 ∈ List.filter (fun u => u.email == req.email) db.usuarios := by
      rw [hfil]
      exact List.mem_cons_self u0 tl
    have hu0 : u0 ∈ db.usuarios := (List.mem_filter.mp hu0f).1
    have he0 : u0.email = req.email := by
      have h := (List.mem_filter.mp hu0f).2
      simpa using h
    dsimp only
    by_cases hpw : u0.contrasena = req.contrasena
    · rw [if_neg (by simp [bne_iff_ne, hpw])]
      have hex : ∃ u ∈ db.usuarios, u.email = req.email ∧ u.contrasena = req.contrasena :=
        ⟨u0, hu0, he0, hpw⟩
      constructor
      · exact iff_of_true hex ⟨rfl, rfl, u0, hu0, he0, hpw, rfl⟩
      · intro hno
        exact absurd hex hno
    · rw [if_pos (by simp [bne_iff_ne, hpw])]
      have hno : ¬∃ u ∈ db.usuarios, u.email = req.email ∧ u.contrasena = req.contrasena := by
        rintro ⟨u, hu, he, hp⟩
        have hueq : u = u0 := List.inj_on_of_nodup_map hnd hu hu0 (by rw [he, he0])
        rw [hueq] at hp
        exact hpw hp
      constructor
      · refine iff_of_false hno ?_
        rintro ⟨h2, -⟩
        simp at h2
      · intro _
        rfl

/-- C4 witness: a matching plaintext password logs in with the signed
payload, a wrong one gets exactly the 401 response. -/
theorem C4_witness :
    (loginUsuario allOk { email := "e@x", contrasena := "pw" }
      (initCtx { usuarios := [⟨"u1", "n", "e@x", "pw"⟩] })).1.token = some ⟨"u1", "e@x"⟩
    ∧ (loginUsuario allOk { email := "e@x", contrasena := "bad" }
      (initCtx { usuarios := [⟨"u1", "n", "e@x", "pw"⟩] })).1
      = { status := 401, mensaje := "Credenciales incorrectas" } := by
  constructor
  · obtain ⟨-, -, u, hu, -, -, htok⟩ :=
      (C4_login_plaintext_check { usuarios := [⟨"u1", "n", "e@x", "pw"⟩] }
        { email := "e@x", contrasena := "pw" } (by decide)).1.mp
        ⟨⟨"u1", "n", "e@x", "pw"⟩, by decide, rfl, rfl⟩
    have hueq : u = (⟨"u1", "n", "e@x", "pw"⟩ : Usuario) := by simpa using hu
    rw [hueq] at htok
    exact htok
  · exact (C4_login_plaintext_check { usuarios := [⟨"u1", "n", "e@x", "pw"⟩] }
      { email := "e@x", contrasena := "bad" } (by decide)).2 (by decide)

/-- C2 counterexample: a user who already has a relation row for the base
aplicativo receives a second one from the default-content assignment:
`asignarContenidoDefecto` (which runs `asignarAplicativosPorDefecto`)
inserts a relation row for every base row without any duplicate check, so
the (usuario, aplicativo) pair ends with two relation rows — the claimed
invariant is not preserved by every inserting operation. -/
theorem C2_counterexample :
    let db : DB :=
      { usuarios := [⟨"u1", "n", "e@x", "pw"⟩],
        aplicativos_base := [⟨"b1", "Gmail", "https://mail.google.com", "Correo"⟩],
        aplicativos_rel := [⟨"ar1", "u1", "b1", 0⟩],
        plantillas_base := [⟨"p1", "Nota General", some "", some "", some "", some ""⟩] }
    (db.aplicativos_rel.filter
        (fun r => r.usuario_id == "u1" && r.aplicativo_base_id == "b1")).length = 1
    ∧ (asignarContenidoDefecto allOk (some "u1") (initCtx db)).1.status = 200
    ∧ ((asignarContenidoDefecto allOk (some "u1") (initCtx db)).2.db.aplicativos_rel.filter
        (fun r => r.usuario_id == "u1" && r.aplicativo_base_id == "b1")).length = 2 := by
  dsimp only
  refine ⟨?_, ?_, ?_⟩ <;> decide

/-- C2 (amended): `asignarAplicativo` and `asignarNota` do preserve the
at-most-one-relation-row-per-pair invariant and answer 409 leaving the
state unchanged when the pair already has a row; the claim fails only for
the default-content assignment (see the counterexample), which inserts
without checking. -/
theorem C2_assign_unique_pairs_amended :
    (∀ (db : DB) (req : AsignarAplicativoReq),
      (∀ u b, (db.aplicativos_rel.filter
          (fun r => r.usuario_id == u && r.aplicativo_base_id == b)).length ≤ 1) →
      (∀ u b, ((asignarAplicativo allOk req (initCtx db)).2.db.aplicativos_rel.filter
          (fun r => r.usuario_id == u && r.aplicativo_base_id == b)).length ≤ 1))
    ∧ (∀ (db : DB) (req : AsignarAplicativoReq),
      truthy req.usuario_id → truthy req.aplicativo_base_id →
      (∃ u ∈ db.usuarios, u.id = getStr req.usuario_id) →
      (∃ b ∈ db.aplicativos_base, b.id = getStr req.aplicativo_base_id) →
      0 < (db.aplicativos_rel.filter (fun r =>
          r.usuario_id == getStr req.usuario_id
            && r.aplicativo_base_id == getStr req.aplicativo_base_id)).length →
      (asignarAplicativo allOk req (initCtx db)).1.status = 409
      ∧ (asignarAplicativo allOk req (initCtx db)).2.db = db)
    ∧ (∀ (db : DB) (req : AsignarNotaReq),
      (∀ u p, (db.notas_despacho_rel.filter
          (fun r => r.usuario_id == u && r.plantilla_id == p)).length ≤ 1) →
      (∀ u p, ((asignarNota allOk req (initCtx db)).2.db.notas_despacho_rel.filter
          (fun r => r.usuario_id == u && r.plantilla_id == p)).length ≤ 1))
    ∧ (∀ (db : DB) (req : AsignarNotaReq),
      truthy req.usuario_id → truthy req.plantilla_id →
      (∃ u ∈ db.usuarios, u.id = getStr req.usuario_id) →
      (∃ q ∈ db.plantillas_base, q.id = getStr req.plantilla_id) →
      0 < (db.notas_despacho_rel.filter (fun r =>
          r.usuario_id == getStr req.usuario_id
            && r.plantilla_id == getStr req.plantilla_id)).length →
      (asignarNota allOk req (initCtx db)).1.status = 409
      ∧ (asignarNota allOk req (initCtx db)).2.db = db) := by
  refine ⟨?_, ?_, ?_, ?_⟩
  · intro db req hinv u b
    unfold asignarAplicativo
    split
    · exact hinv u b
    · dsimp only
      rw [qy_allOk]
      dsimp only [initCtx]
      split
      · exact hinv u b
      · rw [qy_allOk]
        dsimp only
        split
        · exact hinv u b
        · rw [qy_allOk]
          dsimp only
          split
          · exact hinv u b
          next hchk =>
            dsimp only [fresh]
            rw [qy_allOk]
            dsimp only
            rw [List.filter_append, List.length_append]
            by_cases hrow : ((getStr req.usuario_id == u)
                && (getStr req.aplicativo_base_id == b)) = true
            · rw [Bool.and_eq_true] at hrow
              obtain ⟨hu', hb'⟩ := hrow
              have hu2 : getStr req.usuario_id = u := by simpa using hu'
              have hb2 : getStr req.aplicativo_base_id = b := by simpa using hb'
              subst hu2
              subst hb2
              have hz : (db.aplicativos_rel.filter (fun r =>
                  r.usuario_id == getStr req.usuario_id
                    && r.aplicativo_base_id == getStr req.aplicativo_base_id)).length = 0 := by
                omega
              rw [hz]
              simp
            · have hrow2 : ((getStr req.usuario_id == u)
                  && (getStr req.aplicativo_base_id == b)) = false :=
                Bool.eq_false_iff.mpr hrow
              have h1 := hinv u b
              simp only [List.filter, hrow2]
              simpa using h1
  · rintro db req h1 h2 ⟨u, hu, hui⟩ ⟨b, hb, hbi⟩ hpos
    unfold asignarAplicativo
    rw [if_neg (by simp [h1, h2])]
    dsimp only
    rw [qy_allOk]
    dsimp only [initCtx]
    rw [if_neg (fun h0 => by
      rw [List.length_eq_zero] at h0
      exact absurd (List.mem_filter.mpr ⟨hu, show (u.id == getStr req.usuario_id) = true by rw [hui]; exact beq_self_eq_true _⟩)
        (by rw [h0]; exact List.not_mem_nil u))]
    rw [qy_allOk]
    dsimp only
    rw [if_neg (fun h0 => by
      rw [List.length_eq_zero] at h0
      exact absurd (List.mem_filter.mpr ⟨hb, show (b.id == getStr req.aplicativo_base_id) = true by rw [hbi]; exact beq_self_eq_true _⟩)
        (by rw [h0]; exact List.not_mem_nil b))]
    rw [qy_allOk]
    dsimp only
    rw [if_pos hpos]
    exact ⟨rfl, rfl⟩
  · intro db req hinv u p
    unfold asignarNota
    split
    · exact hinv u p
    · dsimp only
      rw [qy_allOk]
      dsimp only [initCtx]
      rw [qy_allOk]
      dsimp only
      rw [qy_allOk]
      dsimp only
      split
      · exact hinv u p
      · split
        · exact hinv u p
        · split
          · exact hinv u p
          next hchk =>
            dsimp only [fresh]
            rw [qy_allOk]
            dsimp only
            rw [List.filter_append, List.length_append]
            by_cases hrow : ((getStr req.usuario_id == u)
                && (getStr req.plantilla_id == p)) = true
            · rw [Bool.and_eq_true] at hrow
              obtain ⟨hu', hp'⟩ := hrow
              have hu2 : getStr req.usuario_id = u := by simpa using hu'
              have hp2 : getStr req.plantilla_id = p := by simpa using hp'
              subst hu2
              subst hp2
              have hz : (db.notas_despacho_rel.filter (fun r =>
                  r.usuario_id == getStr req.usuario_id
                    && r.plantilla_id == getStr req.plantilla_id)).length = 0 := by
                omega
              rw [hz]
              simp
            · have hrow2 : ((getStr req.usuario_id == u)
                  && (getStr req.plantilla_id == p)) = false :=
                Bool.eq_false_iff.mpr hrow
              have h1 := hinv u p
              simp only [List.filter, hrow2]
              simpa using h1
  · rintro db req h1 h2 ⟨u, hu, hui⟩ ⟨q, hq, hqi⟩ hpos
    unfold asignarNota
    rw [if_neg (by simp [h1, h2])]
    dsimp only
    rw [qy_allOk]
    dsimp only [initCtx]
    rw [qy_allOk]
    dsimp only
    rw [qy_allOk]
    dsimp only
    rw [if_neg (fun h0 => by
      rw [List.length_eq_zero] at h0
      exact absurd (List.mem_filter.mpr ⟨hu, show (u.id == getStr req.usuario_id) = true by rw [hui]; exact beq_self_eq_true _⟩)
        (by rw [h0]; exact List.not_mem_nil u))]
    rw [if_neg (fun h0 => by
      rw [List.length_eq_zero] at h0
      exact absurd (List.mem_filter.mpr ⟨hq, show (q.id == getStr req.plantilla_id) = true by rw [hqi]; exact beq_self_eq_true _⟩)
        (by rw [h0]; exact List.not_mem_nil q))]
    rw [if_pos hpos]
    exact ⟨rfl, rfl⟩

/-- C2 witness: a pair that already has a relation row is answered 409 by
`asignarAplicativo`, obtained from the amended theorem at a concrete
state. -/
theorem C2_witness :
    (asignarAplicativo allOk { usuario_id := some "u1", aplicativo_base_id := some "b1" }
      (initCtx { usuarios := [⟨"u1", "n", "e@x", "pw"⟩],
                 aplicativos_base := [⟨"b1", "Gmail", "https://mail.google.com", "Correo"⟩],
                 aplicativos_rel := [⟨"ar1", "u1", "b1", 0⟩] })).1.status = 409 := by
  exact (C2_assign_unique_pairs_amended.2.1
    { usuarios := [⟨"u1", "n", "e@x", "pw"⟩],
      aplicativos_base := [⟨"b1", "Gmail", "https://mail.google.com", "Correo"⟩],
      aplicativos_rel := [⟨"ar1", "u1", "b1", 0⟩] }
    { usuario_id := some "u1", aplicativo_base_id := some "b1" }
    (by decide) (by decide)
    ⟨⟨"u1", "n", "e@x", "pw"⟩, by decide, rfl⟩
    ⟨⟨"b1", "Gmail", "https://mail.google.com", "Correo"⟩, by decide, rfl⟩
    (by decide)).1

theorem qy_ok_of_oracle {o : Oracle} {c : Ctx} {text : String} {ps : List String}
    (h : o c.qn = true) :
    qy o c text ps
      = .ok { c with qn := c.qn + 1, trace := c.trace ++ [{ text := text, params := ps }] } := by
  unfold qy
  dsimp only
  rw [if_pos h]

theorem qy_error_of_oracle {o : Oracle} {c : Ctx} {text : String} {ps : List String}
    (h : o c.qn = false) :
    qy o c text ps
      = .error { c with qn := c.qn + 1, trace := c.trace ++ [{ text := text, params := ps }] } := by
  unfold qy
  dsimp only
  rw [if_neg (by simp [h])]

theorem usuarios_asgPlant_error {o : Oracle} {uid : String} {c c' : Ctx}
    (h : asignarPlantillasPorDefecto o uid c = .error c') : c'.db.usuarios = c.db.usuarios := by
  have hh := usuarios_asignarPlantillasPorDefecto o uid c
  rw [h] at hh
  exact hh

theorem usuarios_asgPlant_ok2 {o : Oracle} {uid : String} {c c' : Ctx}
    (h : asignarPlantillasPorDefecto o uid c = .ok c') : c'.db.usuarios = c.db.usuarios := by
  have hh := usuarios_asignarPlantillasPorDefecto o uid c
  rw [h] at hh
  exact hh

theorem usuarios_asgApli_error {o : Oracle} {uid : String} {c c' : Ctx}
    (h : asignarAplicativosPorDefecto o uid c = .error c') : c'.db.usuarios = c.db.usuarios := by
  have hh := usuarios_asignarAplicativosPorDefecto o uid c
  rw [h] at hh
  exact hh

theorem usuarios_asgApli_ok2 {o : Oracle} {uid : String} {c c' : Ctx}
    (h : asignarAplicativosPorDefecto o uid c = .ok c') : c'.db.usuarios = c.db.usuarios := by
  have hh := usuarios_asignarAplicativosPorDefecto o uid c
  rw [h] at hh
  exact hh

/-- C8: `registrarUsuario` commits the `usuarios` row and answers 201
with the signed token for every behaviour of the default-content
assignment — its error is caught and swallowed, so a failure there never
undoes the registration or changes the success response (oracle steps 0
and 1 are the duplicate-check SELECT and the user INSERT; everything the
assignment does afterwards is unconstrained).  Registration is prevented
only by a duplicate email (400, state unchanged) or a failure of the
SELECT or the INSERT itself (500, user not inserted). -/
theorem C8_registration_swallows_assignment_errors :
    ∀ (o : Oracle) (req : RegistroReq) (db : DB),
      (o 0 = true → o 1 = true → (∀ u ∈ db.usuarios, u.email ≠ req.email) →
        (registrarUsuario o req (initCtx db)).1.status = 201
        ∧ (registrarUsuario o req (initCtx db)).1.mensaje = "Registro exitoso"
        ∧ (registrarUsuario o req (initCtx db)).1.token = some ⟨"uuid-0", req.email⟩
        ∧ (⟨"uuid-0", req.nombre, req.email, req.contrasena⟩ : Usuario)
            ∈ (registrarUsuario o req (initCtx db)).2.db.usuarios)
      ∧ ((∃ u ∈ db.usuarios, u.email = req.email) → o 0 = true →
        (registrarUsuario o req (initCtx db)).1
          = { status := 400, mensaje := "El correo ya está registrado" }
        ∧ (registrarUsuario o req (initCtx db)).2.db = db)
      ∧ (o 0 = false →
        (registrarUsuario o req (initCtx db)).1 = err500Servidor
        ∧ (registrarUsuario o req (initCtx db)).2.db = db)
      ∧ (o 0 = true → (∀ u ∈ db.usuarios, u.email ≠ req.email) → o 1 = false →
        (registrarUsuario o req (initCtx db)).1 = err500Servidor
        ∧ (registrarUsuario o req (initCtx db)).2.db = db) := by
  intro o req db
  refine ⟨?_, ?_, ?_, ?_⟩
  · intro h0 h1 hfresh
    have hfil : db.usuarios.filter (fun u => u.email == req.email) = [] := by
      rw [List.filter_eq_nil_iff]
      intro u hu
      simp [hfresh u hu]
    unfold registrarUsuario
    rw [qy_ok_of_oracle h0]
    dsimp only [initCtx]
    rw [hfil]
    rw [if_neg (by simp)]
    dsimp only [fresh]
    rw [qy_ok_of_oracle h1]
    dsimp only
    refine ⟨rfl, rfl, rfl, ?_⟩
    split
    next c3 h3 =>
      rw [usuarios_asgPlant_error h3]
      refine List.mem_append_right _ ?_
      rw [show ("uuid-" ++ toString 0 : String) = "uuid-0" from rfl]
      exact List.mem_singleton.mpr rfl
    next c3 h3 =>
      have hu3 := usuarios_asgPlant_ok2 h3
      split
      next c4 h4 =>
        rw [usuarios_asgApli_error h4, hu3]
        refine List.mem_append_right _ ?_
        rw [show ("uuid-" ++ toString 0 : String) = "uuid-0" from rfl]
        exact List.mem_singleton.mpr rfl
      next c4 h4 =>
        rw [usuarios_asgApli_ok2 h4, hu3]
        refine List.mem_append_right _ ?_
        rw [show ("uuid-" ++ toString 0 : String) = "uuid-0" from rfl]
        exact List.mem_singleton.mpr rfl
  · rintro ⟨u, hu, he⟩ h0
    unfold registrarUsuario
    rw [qy_ok_of_oracle h0]
    dsimp only [initCtx]
    rw [if_pos (List.length_pos.mpr (List.ne_nil_of_mem
      (List.mem_filter.mpr ⟨hu, show (u.email == req.email) = true by
        rw [he]; exact beq_self_eq_true _⟩)))]
    exact ⟨rfl, rfl⟩
  · intro h0
    unfold registrarUsuario
    rw [qy_error_of_oracle h0]
    exact ⟨rfl, rfl⟩
  · intro h0 hfresh h1
    have hfil : db.usuarios.filter (fun u => u.email == req.email) = [] := by
      rw [List.filter_eq_nil_iff]
      intro u hu
      simp [hfresh u hu]
    unfold registrarUsuario
    rw [qy_ok_of_oracle h0]
    dsimp only [initCtx]
    rw [hfil]
    rw [if_neg (by simp)]
    dsimp only [fresh]
    rw [qy_error_of_oracle h1]
    exact ⟨rfl, rfl⟩

/-- C8 witness: with an oracle that fails every query from step 2 on (the
whole default-content assignment fails), a fresh registration still
answers 201 and the user row is committed. -/
theorem C8_witness :
    (registrarUsuario (fun n => decide (n < 2))
      { nombre := "Nuevo", email := "c@d", contrasena := "s3" }
      (initCtx { usuarios := [⟨"u0", "x", "a@b", "pw"⟩] })).1.status = 201
    ∧ (⟨"uuid-0", "Nuevo", "c@d", "s3"⟩ : Usuario)
        ∈ (registrarUsuario (fun n => decide (n < 2))
          { nombre := "Nuevo", email := "c@d", contrasena := "s3" }
          (initCtx { usuarios := [⟨"u0", "x", "a@b", "pw"⟩] })).2.db.usuarios := by
  have h := (C8_registration_swallows_assignment_errors (fun n => decide (n < 2))
    { nombre := "Nuevo", email := "c@d", contrasena := "s3" }
    { usuarios := [⟨"u0", "x", "a@b", "pw"⟩] }).1 (by decide) (by decide) (by decide)
  exact ⟨h.1, h.2.2.2⟩

end SIGED
